import Mathlib

/-!
Verification of the multi-provider AI discovery-and-fallback engine
(`ai_manager.py`, class `SmartAIManager`).

The Python source is shallowly embedded below.  External effects are made
explicit parameters:
* network calls of a backend are abstracted as a function
  `Nat → String → Outcome` giving, for each attempt index and model name,
  the observed result (success value or raised exception message);
* the durable store (sqlite) is a map `String → Nat` of usage counts plus a
  `dbFails` flag injecting the `except` branches of `check_user_limit` /
  `update_user_usage`;
* `genai.configure` / `OpenAIClient(...)` success is a boolean parameter
  (`configure_ok`), and `genai.list_models` is `Option (List String)`
  (`none` = the query raised, falling back to the static list; names are
  given with the `models/` prefix already stripped, as the source does).

Side effects not touched by any verified property are omitted with a note at
their call site: logging, `db.save_ai_conversation` / `db.save_generated_file`
(write-only collaborator calls) and the `generated_files_cache` write (its key
is an md5 fingerprint, external to the engine's logic).
-/

namespace AINexus

/-- Python `needle in hay` for strings: `listStartsWith hay needle` is true
when `needle` is a prefix of `hay` (character lists). -/
def listStartsWith : List Char → List Char → Bool
  | _, [] => true
  | [], _ :: _ => false
  | h :: hs, n :: ns => h == n && listStartsWith hs ns

/-- `listHasSub hay needle`: `needle` occurs contiguously inside `hay`. -/
def listHasSub : List Char → List Char → Bool
  | [], needle => needle.isEmpty
  | h :: t, needle => listStartsWith (h :: t) needle || listHasSub t needle

/-- Python `needle in hay` on strings. -/
def pyIn (needle hay : String) : Bool := listHasSub hay.toList needle.toList

/-- Python `str.lower()` (the model names and error keywords are ASCII). -/
def pyLower (s : String) : String := ⟨s.toList.map Char.toLower⟩

/-- Python `str.strip()`: drop leading and trailing whitespace. -/
def pyStrip (s : String) : String :=
  ⟨((s.toList.dropWhile Char.isWhitespace).reverse.dropWhile Char.isWhitespace).reverse⟩

/-- `ServiceType` enum of `ai_manager.py`. -/
inductive ServiceType where
  | chat
  | image
  | video
deriving DecidableEq, Repr

/-- `Provider` enum of `ai_manager.py`. -/
inductive Provider where
  | google
  | openai
  | stability
  | luma
  | kling
deriving DecidableEq, Repr

/-- `Provider.value` (the enum's string payload). -/
def Provider.value : Provider → String
  | .google => "google"
  | .openai => "openai"
  | .stability => "stability"
  | .luma => "luma"
  | .kling => "kling"

/-- `ModelInfo` dataclass (fields not read by any verified code path —
`release_date`, `max_tokens`, `is_deprecated`, `supports_enhancement` —
are omitted). -/
structure ModelInfo where
  name : String
  provider : Provider
  service_type : ServiceType
  version : String := "1.0"
  is_latest : Bool := false
  priority : Nat := 100
deriving DecidableEq, Repr

/-- `ProviderConfig` dataclass.  The Python dicts
`discovered_models : Dict[ServiceType, List[ModelInfo]]` and
`active_models : Dict[ServiceType, str]` are represented by one field per
`ServiceType`; a key absent from the dict is the default value (`[]` resp.
`none`), which is observationally equal for every operation of the source
(each reader guards `not models` / `.get`). `avg_response_time` is never
read and is omitted. -/
structure ProviderConfig where
  name : Provider
  api_key : Option String := none
  enabled : Bool := false
  daily_limit : Nat := 100
  usage_today : Nat := 0
  errors_today : Nat := 0
  last_error : Option String := none
  discovered_chat : List ModelInfo := []
  discovered_image : List ModelInfo := []
  discovered_video : List ModelInfo := []
  active_chat : Option String := none
  active_image : Option String := none
  active_video : Option String := none
deriving DecidableEq, Repr

/-- `config.discovered_models[st]` (absent key = `[]`). -/
def ProviderConfig.discovered (c : ProviderConfig) : ServiceType → List ModelInfo
  | .chat => c.discovered_chat
  | .image => c.discovered_image
  | .video => c.discovered_video

/-- `config.active_models.get(st)`. -/
def ProviderConfig.active (c : ProviderConfig) : ServiceType → Option String
  | .chat => c.active_chat
  | .image => c.active_image
  | .video => c.active_video

/-- `config.active_models[st] = v`. -/
def setActive (c : ProviderConfig) (st : ServiceType) (v : Option String) : ProviderConfig :=
  match st with
  | .chat => { c with active_chat := v }
  | .image => { c with active_image := v }
  | .video => { c with active_video := v }

/-! ### Model classification and ranking (`_analyze_google_model`,
`_analyze_openai_model`, sorting, `_select_best_models`) -/

/-- `_analyze_google_model`: classify a Google model name into a service type
and priority; names matching no capability pattern yield `none`. -/
def analyze_google_model (model_name : String) : Option ModelInfo :=
  let ml := pyLower model_name
  let stOpt : Option ServiceType :=
    if pyIn "gemini" ml && !pyIn "tts" ml then some .chat
    else if pyIn "imagen" ml || pyIn "banana" ml then some .image
    else if pyIn "veo" ml then some .video
    else none
  match stOpt with
  | none => none
  | some st =>
    let vp : String × Nat :=
      match st with
      | .chat =>
        if pyIn "gemini-3" ml then ("3.0", 10)
        else if pyIn "gemini-2.5" ml || pyIn "gemini-2-5" ml then ("2.5", 15)
        else if pyIn "gemini-2.0" ml || pyIn "gemini-2-0" ml then ("2.0", 20)
        else if pyIn "gemini-1.5" ml || pyIn "gemini-1-5" ml then ("1.5", 30)
        else if pyIn "gemini-1.0" ml || pyIn "gemini-1-0" ml || pyIn "gemini-pro" ml then
          ("1.0", 40)
        else ("1.0", 100)
      | .image =>
        if pyIn "banana" ml then ("1.0", 5)
        else if pyIn "imagen-4" ml then ("1.0", 10)
        else if pyIn "imagen-3" ml then ("1.0", 20)
        else if pyIn "imagen-2" ml then ("1.0", 30)
        else ("1.0", 50)
      | .video =>
        if pyIn "veo" ml then ("1.0", 10) else ("1.0", 100)
    some { name := model_name, provider := .google, service_type := st,
           version := vp.1, is_latest := pyIn "latest" ml, priority := vp.2 }

/-- `_analyze_openai_model`. -/
def analyze_openai_model (model_name : String) (st : ServiceType) : Option ModelInfo :=
  let ml := pyLower model_name
  let vpOpt : Option (String × Nat) :=
    match st with
    | .chat =>
      if pyIn "gpt-4o" ml then some ("4.0", if pyIn "mini" ml then 5 else 10)
      else if pyIn "gpt-4-turbo" ml then some ("4.0", 15)
      else if pyIn "gpt-4" ml then some ("4.0", 20)
      else if pyIn "gpt-3.5-turbo" ml then some ("3.5", if pyIn "instruct" ml then 30 else 25)
      else none
    | .image =>
      if pyIn "dall-e-3" ml then some ("3.0", 5)
      else if pyIn "dall-e-2" ml then some ("2.0", 10)
      else none
    | .video =>
      -- never reached by the source (only chat/image lists exist); the Python
      -- function would fall through with the defaults
      some ("1.0", 100)
  match vpOpt with
  | none => none
  | some vp =>
    some { name := model_name, provider := .openai, service_type := st,
           version := vp.1, priority := vp.2 }

/-- Ascending priority, the key of `list.sort(key=lambda x: x.priority)`. -/
def prioLe (a b : ModelInfo) : Prop := a.priority ≤ b.priority

instance : DecidableRel prioLe := fun a b =>
  inferInstanceAs (Decidable (a.priority ≤ b.priority))

instance : IsTotal ModelInfo prioLe := ⟨fun a b => Nat.le_total a.priority b.priority⟩

instance : IsTrans ModelInfo prioLe := ⟨fun _ _ _ h1 h2 => Nat.le_trans h1 h2⟩

/-- Python's `list.sort(key=lambda x: x.priority)` is a stable ascending sort;
insertion sort with `prioLe` is the (unique) stable sort for that key. -/
def sortByPriority (l : List ModelInfo) : List ModelInfo := List.insertionSort prioLe l

/-- Static fallback list of `_setup_and_discover_google` (used when
`genai.list_models()` raises). -/
def google_fallback_models : List String :=
  ["nano-banana-pro-preview", "imagen-4.0-generate-preview-06-06",
   "imagen-3.0-generate-001", "gemini-2.5-flash", "gemini-2.5-pro",
   "gemini-3-flash-preview", "gemini-3-pro-preview", "gemini-2.0-flash",
   "veo-3.0-generate-001"]

/-- The classification loop of `_setup_and_discover_google`: analyze every raw
name in order and keep those classified into `st` (append order = raw order). -/
def classify_google (raw : List String) (st : ServiceType) : List ModelInfo :=
  (raw.filterMap analyze_google_model).filter (fun m => m.service_type == st)

/-- `_setup_and_discover_google`.  `live = none` models `genai.list_models()`
raising (static fallback list used); `configure_ok = false` models an
exception out of `genai.configure` (the `except` branch: `enabled := false`).
The `api_key.startswith("AI")` test only logs a warning — it has no effect on
state and so no counterpart here. -/
def setup_and_discover_google (cfg : ProviderConfig) (live : Option (List String))
    (configure_ok : Bool) : ProviderConfig :=
  match cfg.api_key with
  | none => cfg
  | some k =>
    if k == "" then cfg
    else if !configure_ok then { cfg with enabled := false }
    else
      let raw := live.getD google_fallback_models
      let cfg := { cfg with
        enabled := true
        discovered_chat := sortByPriority (classify_google raw .chat)
        discovered_image := sortByPriority (classify_google raw .image)
        discovered_video := sortByPriority (classify_google raw .video) }
      match cfg.discovered_chat with
      | [] => cfg
      | top :: _ => { cfg with active_chat := some top.name }

/-- Known OpenAI chat models (`known_openai_models[ServiceType.CHAT]`). -/
def known_openai_chat : List String :=
  ["gpt-4o", "gpt-4o-mini", "gpt-4-turbo", "gpt-4", "gpt-3.5-turbo",
   "gpt-3.5-turbo-instruct"]

/-- Known OpenAI image models (`known_openai_models[ServiceType.IMAGE]`). -/
def known_openai_image : List String := ["dall-e-3", "dall-e-2"]

/-- `_setup_and_discover_openai`.  `client_ok = false` models
`OpenAIClient(...)` raising (the `except` branch).  The `startswith("sk-")`
test only logs a warning. -/
def setup_and_discover_openai (cfg : ProviderConfig) (client_ok : Bool) : ProviderConfig :=
  match cfg.api_key with
  | none => cfg
  | some k =>
    if k == "" then cfg
    else if !client_ok then { cfg with enabled := false }
    else
      { cfg with
        enabled := true
        discovered_chat :=
          sortByPriority (known_openai_chat.filterMap (fun n => analyze_openai_model n .chat))
        discovered_image :=
          sortByPriority (known_openai_image.filterMap (fun n => analyze_openai_model n .image))
        discovered_video := [] }

/-- `_setup_other_apis` for one of Stability / Luma / Kling: enable only when
a credential is present, non-empty and longer than 20 characters. -/
def setup_other (cfg : ProviderConfig) : ProviderConfig :=
  match cfg.api_key with
  | none => cfg
  | some k =>
    if k == "" then cfg
    else if k.length > 20 then { cfg with enabled := true }
    else cfg

/-- Python `min(models, key=lambda x: x.priority)`: first element of minimal
priority (replacement only on strictly smaller key). -/
def pyMinPriority (x : ModelInfo) (xs : List ModelInfo) : ModelInfo :=
  xs.foldl (fun acc m => if m.priority < acc.priority then m else acc) x

/-- `_select_best_models` for one service of one config. -/
def select_best_for (cfg : ProviderConfig) (st : ServiceType) : ProviderConfig :=
  match cfg.discovered st with
  | [] => cfg
  | m :: ms => setActive cfg st (some (pyMinPriority m ms).name)

/-- `_select_best_models` for one config (skips disabled providers). -/
def select_best_models (cfg : ProviderConfig) : ProviderConfig :=
  if !cfg.enabled then cfg
  else select_best_for (select_best_for (select_best_for cfg .chat) .image) .video

/-! ### Provider registry (`__init__` / `_init_providers`) and quota cache -/

/-- The LRU user-limits cache (`OrderedDict`): association list in insertion /
recency order (front = least recently touched), plus the durable `ai_usage`
counts keyed by `cache_key`. -/
structure QuotaState where
  cache : List (String × Nat)
  db : String → Nat

/-- The mutable state of `SmartAIManager` relevant to the verified claims.
(`chat_sessions` and `generated_files_cache` are untouched by the claims.) -/
structure SysState where
  providers : Provider → ProviderConfig
  quota : QuotaState
  discovery_completed : Bool

/-- Insertion order of the `providers` dict in `_init_providers`
(= iteration order of `self.providers.values()`). -/
def provider_order : List Provider := [.google, .openai, .stability, .luma, .kling]

/-- Point update of the providers map (the dict entry is mutated in place). -/
def updProviders (f : Provider → ProviderConfig) (p : Provider) (c : ProviderConfig) :
    Provider → ProviderConfig :=
  fun q => if q = p then c else f q

/-- The credential-shape validation loop at the end of `_init_providers`:
missing / empty (after `strip`) / shorter than 10 characters forces
`enabled := false` (which is already the dataclass default — `_init_providers`
never sets `enabled` to `True`). -/
def validate_key (cfg : ProviderConfig) : ProviderConfig :=
  match cfg.api_key with
  | none => { cfg with enabled := false }
  | some k =>
    if pyStrip k == "" then { cfg with enabled := false }
    else if k.length < 10 then { cfg with enabled := false }
    else cfg

/-- One entry of `_init_providers` (daily limit from the environment). -/
def init_provider (p : Provider) (key : Option String) (lim : Nat) : ProviderConfig :=
  validate_key { name := p, api_key := key, daily_limit := lim }

/-- `SmartAIManager.__init__`: fresh caches, all providers constructed, and
`discovery_completed = False`. -/
def init_state (keys : Provider → Option String) (lims : Provider → Nat) : SysState :=
  { providers := fun p => init_provider p (keys p) (lims p),
    quota := { cache := [], db := fun _ => 0 },
    discovery_completed := false }

/-- The body of `_setup_and_discover_async` minus its `try/except`: Google
setup, OpenAI setup, the other APIs, then `_select_best_models`
(`_log_discovery_results` only logs). -/
def run_discovery (s : SysState) (google_live : Option (List String))
    (g_ok o_ok : Bool) : SysState :=
  let ps1 := updProviders s.providers .google
      (setup_and_discover_google (s.providers .google) google_live g_ok)
  let ps2 := updProviders ps1 .openai (setup_and_discover_openai (ps1 .openai) o_ok)
  let ps3 := fun p =>
    if p = Provider.stability ∨ p = Provider.luma ∨ p = Provider.kling then
      setup_other (ps2 p)
    else ps2 p
  { s with providers := fun p => select_best_models (ps3 p) }

/-- `_setup_and_discover_async`: the whole body runs under `try/except
Exception`, so an exception escaping the steps is swallowed (only logged).
`steps` abstracts the body's outcome: `.ok s2` = it completed producing state
`s2`; `.error e` = an exception `e` escaped the body (for a total failure the
state is left as it was). -/
def setup_and_discover_async (s : SysState) (steps : Except String SysState) : SysState :=
  match steps with
  | .ok s2 => s2
  | .error _ => s

/-- `ensure_discovery`: run discovery once, then set `discovery_completed`.
The flag assignment follows the `await` unconditionally — and
`_setup_and_discover_async` never raises (its body is fully wrapped), so the
flag is set even when discovery failed totally. -/
def ensure_discovery (s : SysState) (steps : Except String SysState) : SysState :=
  if s.discovery_completed then s
  else { setup_and_discover_async s steps with discovery_completed := true }

/-! ### Provider selection (`get_available_providers`) -/

/-- The capability subsets hard-coded in `get_available_providers`. -/
def supports (p : Provider) (st : ServiceType) : Bool :=
  match st with
  | .chat => p == .google || p == .openai
  | .image => p == .google || p == .openai || p == .stability
  | .video => p == .google || p == .luma || p == .kling

/-- The filter of `get_available_providers`: enabled, under the daily limit,
and supporting the capability. -/
def availFilter (st : ServiceType) (c : ProviderConfig) : Bool :=
  c.enabled && decide (c.usage_today < c.daily_limit) && supports c.name st

/-- The key of `available.sort(key=lambda x: (x.errors_today, x.usage_today))`:
lexicographic order on the pair. -/
def provLe (a b : ProviderConfig) : Prop :=
  a.errors_today < b.errors_today ∨
    (a.errors_today = b.errors_today ∧ a.usage_today ≤ b.usage_today)

instance : DecidableRel provLe := fun a b => by
  unfold provLe; exact inferInstance

instance : IsTotal ProviderConfig provLe :=
  ⟨by intro a b; unfold provLe; omega⟩

instance : IsTrans ProviderConfig provLe :=
  ⟨by intro a b c h1 h2; unfold provLe at h1 h2 ⊢; omega⟩

/-- `get_available_providers`: filter in dict order, then Python's stable sort
by `(errors_today, usage_today)`. -/
def get_available_providers (s : SysState) (st : ServiceType) : List ProviderConfig :=
  List.insertionSort provLe ((provider_order.map s.providers).filter (availFilter st))

/-- `get_active_model`. -/
def get_active_model (s : SysState) (p : Provider) (st : ServiceType) : Option String :=
  let c := s.providers p
  if !c.enabled then none else c.active st

/-! ### Model rotation and the retry loop (`rotate_model`,
`_execute_with_fallback`) -/

/-- Python truthiness of `current_model` (`None` or `""` are falsy). -/
def optFalsy : Option String → Bool
  | none => true
  | some s => s == ""

/-- The `for i, model in enumerate(models): if model.name == current_model:
current_index = i; break` search of `rotate_model`. -/
def find_model_index (models : List ModelInfo) (cur : String) : Option Nat :=
  match models with
  | [] => none
  | m :: ms => if m.name == cur then some 0 else (find_model_index ms cur).map (fun i => i + 1)

/-- `rotate_model`: returns the new model (or `None`) and the config with
`active_models[st]` updated. -/
def rotate_model (cfg : ProviderConfig) (st : ServiceType) (current : Option String) :
    Option String × ProviderConfig :=
  match cfg.discovered st with
  | [] => (none, cfg)
  | m0 :: ms =>
    let models := m0 :: ms
    let names := models.map ModelInfo.name
    let cur := current.getD ""
    let new_model :=
      if optFalsy current || !names.contains cur then m0.name
      else
        match find_model_index models cur with
        | none => m0.name
        | some i =>
          if models.length - 1 ≤ i then m0.name
          else ((models.get? (i + 1)).getD m0).name
    (some new_model, setActive cfg st (some new_model))

/-- Keywords of the quota-style classification in `_execute_with_fallback`. -/
def quota_keywords : List String := ["429", "quota", "rate limit", "resource exhausted"]

/-- Keywords of the model-unavailable classification. -/
def model_keywords : List String := ["404", "not found", "invalid model", "model not found"]

/-- `is_quota_error` check of `_execute_with_fallback`. -/
def is_quota_error (msg : String) : Bool :=
  quota_keywords.any (fun k => pyIn k (pyLower msg))

/-- `is_model_error` check of `_execute_with_fallback`. -/
def is_model_error (msg : String) : Bool :=
  model_keywords.any (fun k => pyIn k (pyLower msg))

/-- The exception raised when `_execute_with_fallback` gives up on a backend. -/
def all_failed_msg (p : Provider) (maxRetries : Nat) : String :=
  "فشلت جميع محاولات " ++ p.value ++ " (" ++ toString maxRetries ++ " محاولات)"

/-- The exception raised when the provider is not enabled. -/
def not_enabled_msg (p : Provider) : String :=
  "المزود " ++ p.value ++ " غير مفعل"

/-- Result of one backend call (`execute_func`): a returned value or the
message of a raised exception. -/
inductive Outcome where
  | ok (res : String)
  | err (msg : String)
deriving DecidableEq, Repr

/-- Observable result of `_execute_with_fallback`: the returned value or the
raised exception message, the config after rotations, and instrumentation
(number of `execute_func` calls, number of `rotate_model` calls). -/
structure ExecResult where
  result : Except String String
  cfg : ProviderConfig
  calls : Nat
  rotCalls : Nat
deriving Repr

/-- The `if not current_model:` prologue of one loop iteration: resolve the
model to call (falling back to the backend's top-ranked model, which is also
stored into `active_models`), or `none` when the backend has no models for the
service (the raised Arabic message matches no quota/model keyword, so that
path breaks and raises the final exception — inlined below). -/
def resolve_current (stT : ServiceType) (current : Option String) (cfg : ProviderConfig) :
    Option (String × ProviderConfig) :=
  if optFalsy current then
    match cfg.discovered stT with
    | [] => none
    | m0 :: _ => some (m0.name, setActive cfg stT (some m0.name))
  else some (current.getD "", cfg)

/-- The `for attempt in range(max_retries)` loop of `_execute_with_fallback`:
`rem` = remaining iterations, `idx` = attempt index (argument of the
abstracted `execute_func`). -/
def exec_fallback_loop (stT : ServiceType) (p : Provider) (execf : Nat → String → Outcome)
    (maxRetries : Nat) :
    Nat → Nat → Option String → ProviderConfig → Nat → Nat → ExecResult
  | 0, _, _, cfg, calls, rots => ⟨.error (all_failed_msg p maxRetries), cfg, calls, rots⟩
  | rem + 1, idx, current, cfg, calls, rots =>
    match resolve_current stT current cfg with
    | none => ⟨.error (all_failed_msg p maxRetries), cfg, calls, rots⟩
    | some (cur, cfg1) =>
      match execf idx cur with
      | .ok res => ⟨.ok res, cfg1, calls + 1, rots⟩
      | .err msg =>
        if is_quota_error msg || is_model_error msg then
          let rr := rotate_model cfg1 stT (some cur)
          match rr.1 with
          | some next =>
            if next != "" && next != cur then
              exec_fallback_loop stT p execf maxRetries rem (idx + 1) (some next) rr.2
                (calls + 1) (rots + 1)
            else ⟨.error (all_failed_msg p maxRetries), rr.2, calls + 1, rots + 1⟩
          | none => ⟨.error (all_failed_msg p maxRetries), rr.2, calls + 1, rots + 1⟩
        else ⟨.error (all_failed_msg p maxRetries), cfg1, calls + 1, rots⟩

/-- `_execute_with_fallback` for a given provider config (`cfg` is the dict
entry `self.providers[p]`). -/
def execute_with_fallback (cfg : ProviderConfig) (stT : ServiceType) (p : Provider)
    (execf : Nat → String → Outcome) (maxRetries : Nat) : ExecResult :=
  if !cfg.enabled then ⟨.error (not_enabled_msg p), cfg, 0, 0⟩
  else exec_fallback_loop stT p execf maxRetries maxRetries 0 (cfg.active stT) cfg 0 0

/-! ### Quota cache (`check_user_limit`, `update_user_usage`) -/

/-- `cache_key = f"{user_id}_{today}_{service_type}"`. -/
def cache_key (userId : Int) (today stype : String) : String :=
  toString userId ++ "_" ++ today ++ "_" ++ stype

/-- OrderedDict membership lookup. -/
def od_find (c : List (String × Nat)) (k : String) : Option Nat :=
  (c.find? (fun e => e.1 == k)).map (fun e => e.2)

/-- `OrderedDict.move_to_end(k)`: the (unique) entry for `k` moves to the
back, all other entries keep their order. -/
def od_move_to_end (c : List (String × Nat)) (k : String) : List (String × Nat) :=
  match c.find? (fun e => e.1 == k) with
  | none => c
  | some e => c.eraseP (fun x => x.1 == k) ++ [e]

/-- OrderedDict assignment `c[k] = v`: in-place update when present
(position preserved), append at the back otherwise. -/
def od_set (c : List (String × Nat)) (k : String) (v : Nat) : List (String × Nat) :=
  if c.any (fun e => e.1 == k) then
    c.map (fun e => if e.1 == k then (k, v) else e)
  else c ++ [(k, v)]

/-- `check_user_limit`.  `limits` is the env-derived `limits_config` together
with its `.get(service_type, 20)` default (the source defaults are
`ai_chat = 20`, `image_gen = 5`, `video_gen = 2`).  `dbFails = true` injects a
raised exception from the durable-store read (possible only on a cache miss);
the surrounding `try/except` then returns `(True, 999)`. -/
def check_user_limit (q : QuotaState) (userId : Int) (today stype : String)
    (dbFails : Bool) (limits : String → Nat) (maxCache : Nat) :
    (Bool × Nat) × QuotaState :=
  let k := cache_key userId today stype
  match od_find q.cache k with
  | some usage =>
    let c1 := od_move_to_end q.cache k
    let c2 := if c1.length > maxCache then c1.drop 1 else c1
    let lim := limits stype
    if usage ≥ lim then ((false, 0), { q with cache := c2 })
    else ((true, lim - usage), { q with cache := c2 })
  | none =>
    if dbFails then ((true, 999), q)
    else
      let usage := q.db k
      let c1 := od_set q.cache k usage
      let c2 := if c1.length > maxCache then c1.drop 1 else c1
      let lim := limits stype
      if usage ≥ lim then ((false, 0), { q with cache := c2 })
      else ((true, lim - usage), { q with cache := c2 })

/-- `update_user_usage`: bump the cache entry, then upsert the durable count;
a raised durable-store write (`dbFails`) leaves the cache already bumped and
returns `False`. -/
def update_user_usage (q : QuotaState) (userId : Int) (today stype : String)
    (dbFails : Bool) : Bool × QuotaState :=
  let k := cache_key userId today stype
  let cur := (od_find q.cache k).getD 0
  let c1 := od_set q.cache k (cur + 1)
  if dbFails then (false, { q with cache := c1 })
  else (true, { cache := c1, db := fun x => if x = k then q.db k + 1 else q.db x })

/-! ### The per-request provider loop and the entry points
(`chat_with_ai`, `generate_image`, `generate_video`) -/

/-- Python `if not prompt or len(prompt.strip()) < n` (and, for chat with
`n = 1`, `if not message or len(message.strip()) < 1`). -/
def message_too_short (s : String) (minLen : Nat) : Bool :=
  s == "" || (pyStrip s).length < minLen

/-- Trace of one request's provider loop.  `success` is the first truthy
backend result; `contacted` the provider configs iterated (in order);
`attempts` the number of `execute_func` calls made against each; `errors` the
accumulated error summaries. -/
structure RequestOutcome where
  success : Option String
  contacted : List ProviderConfig
  attempts : List (Provider × Nat)
  errors : List String
  state : SysState

/-- The `for provider_config in providers` loop shared verbatim (up to the
service-specific constants) by `chat_with_ai`, `generate_image` and
`generate_video`: run `_execute_with_fallback` against each provider; on a
truthy result commit user usage, bump `usage_today` and stop; on a falsy
result fall through silently; on an exception append
`f"{name}: {msg[:100]}"`, bump `errors_today`, set `last_error` and continue.
(The collaborator write `db.save_*` and the `generated_files_cache` entry are
external effects with no bearing on any claim.) -/
def request_loop (stT : ServiceType) (ukey : String) (maxR : Nat)
    (execp : Provider → Nat → String → Outcome) (today : String) (dbFails : Bool)
    (userId : Int) :
    List ProviderConfig → SysState → List ProviderConfig → List (Provider × Nat) →
      List String → RequestOutcome
  | [], s, contacted, atts, errs => ⟨none, contacted, atts, errs, s⟩
  | pc :: rest, s, contacted, atts, errs =>
    let p := pc.name
    let er := execute_with_fallback (s.providers p) stT p (execp p) maxR
    let s1 : SysState := { s with providers := updProviders s.providers p er.cfg }
    let contacted1 := contacted ++ [pc]
    let atts1 := atts ++ [(p, er.calls)]
    match er.result with
    | .ok v =>
      if v != "" then
        let uu := update_user_usage s1.quota userId today ukey dbFails
        let cfg2 := { er.cfg with usage_today := er.cfg.usage_today + 1 }
        ⟨some v, contacted1, atts1, errs,
          { s1 with quota := uu.2, providers := updProviders s1.providers p cfg2 }⟩
      else request_loop stT ukey maxR execp today dbFails userId rest s1 contacted1 atts1 errs
    | .error msg =>
      let cfg2 := { er.cfg with
        errors_today := er.cfg.errors_today + 1
        last_error := some msg }
      request_loop stT ukey maxR execp today dbFails userId rest
        { s1 with providers := updProviders s1.providers p cfg2 } contacted1 atts1
        (errs ++ [p.value ++ ": " ++ String.take msg 100])

/-- The structured results `chat_with_ai` can return (each constructor is one
`return` site of the source; the returned strings carry the listed data). -/
inductive ChatResult where
  | invalidUser
  | emptyMessage
  | quotaRefused (remaining : Nat)
  | noProvidersAvailable
  | reply (text : String)
  | allFailed (summaries : List String)
  | unexpectedError
deriving DecidableEq, Repr

/-- `chat_with_ai` result together with the loop trace and final state. -/
structure ChatOutcome where
  result : ChatResult
  contacted : List ProviderConfig
  attempts : List (Provider × Nat)
  errors : List String
  state : SysState

/-- The tail of `chat_with_ai`: build the returned value from the loop's
outcome (`if response: ... return response`, then the aggregation of up to
three error summaries, or the unreachable generic message). -/
def wrap_chat (out : RequestOutcome) : ChatOutcome :=
  match out.success with
  | some r => ⟨.reply r, out.contacted, out.attempts, out.errors, out.state⟩
  | none =>
    if out.errors.isEmpty then
      ⟨.unexpectedError, out.contacted, out.attempts, out.errors, out.state⟩
    else ⟨.allFailed (out.errors.take 3), out.contacted, out.attempts, out.errors,
      out.state⟩

/-- `chat_with_ai`.  `steps` is the discovery body passed through to
`ensure_discovery`; `execp` abstracts `execute_chat` (the Google/OpenAI call
for a given model, per attempt).  The outer `try/except` of the source cannot
fire in this total model; every path below is one of its `return` sites. -/
def chat_with_ai (s0 : SysState) (steps : Except String SysState)
    (execp : Provider → Nat → String → Outcome)
    (today : String) (limits : String → Nat) (dbFails : Bool)
    (userId : Int) (message : String) : ChatOutcome :=
  let s := ensure_discovery s0 steps
  if userId ≤ 0 then ⟨.invalidUser, [], [], [], s⟩
  else if message == "" || pyStrip message == "" then ⟨.emptyMessage, [], [], [], s⟩
  else
    -- `message = message[:4000] + "..."` when over-long: the truncated text is
    -- only passed to the (abstracted) backend call
    let chk := check_user_limit s.quota userId today "ai_chat" dbFails limits 1000
    let s1 : SysState := { s with quota := chk.2 }
    if !chk.1.1 then ⟨.quotaRefused chk.1.2, [], [], [], s1⟩
    else
      let provs := get_available_providers s1 .chat
      if provs.isEmpty then ⟨.noProvidersAvailable, [], [], [], s1⟩
      else
        wrap_chat (request_loop .chat "ai_chat" 16 execp today dbFails userId provs s1
          [] [] [])

/-- The structured results of `generate_image` / `generate_video`
(each constructor is one `return` site). -/
inductive MediaResult where
  | invalidUser
  | promptTooShort
  | quotaRefused (remaining : Nat)
  | noProvidersAvailable
  | success (url : String)
  | allFailed (summaries : List String)
  | unexpectedError
deriving DecidableEq, Repr

/-- `generate_image` / `generate_video` result with trace and final state. -/
structure MediaOutcome where
  result : MediaResult
  contacted : List ProviderConfig
  attempts : List (Provider × Nat)
  errors : List String
  state : SysState

/-- The shared tail of `generate_image` / `generate_video`. -/
def wrap_media (out : RequestOutcome) : MediaOutcome :=
  match out.success with
  | some u => ⟨.success u, out.contacted, out.attempts, out.errors, out.state⟩
  | none =>
    if out.errors.isEmpty then
      ⟨.unexpectedError, out.contacted, out.attempts, out.errors, out.state⟩
    else ⟨.allFailed (out.errors.take 3), out.contacted, out.attempts, out.errors,
      out.state⟩

/-- `generate_image`.  The prompt-enhancement call (`_enhance_image_prompt`)
only rewrites the text sent to the abstracted backend call, so it needs no
counterpart here. -/
def generate_image (s0 : SysState) (steps : Except String SysState)
    (execp : Provider → Nat → String → Outcome)
    (today : String) (limits : String → Nat) (dbFails : Bool)
    (userId : Int) (prompt : String) : MediaOutcome :=
  let s := ensure_discovery s0 steps
  if userId ≤ 0 then ⟨.invalidUser, [], [], [], s⟩
  else if message_too_short prompt 3 then ⟨.promptTooShort, [], [], [], s⟩
  else
    let chk := check_user_limit s.quota userId today "image_gen" dbFails limits 1000
    let s1 : SysState := { s with quota := chk.2 }
    if !chk.1.1 then ⟨.quotaRefused chk.1.2, [], [], [], s1⟩
    else
      let provs := get_available_providers s1 .image
      if provs.isEmpty then ⟨.noProvidersAvailable, [], [], [], s1⟩
      else
        wrap_media (request_loop .image "image_gen" 6 execp today dbFails userId provs
          s1 [] [] [])

/-- `generate_video` (same shape; minimum prompt length 5, budget 6). -/
def generate_video (s0 : SysState) (steps : Except String SysState)
    (execp : Provider → Nat → String → Outcome)
    (today : String) (limits : String → Nat) (dbFails : Bool)
    (userId : Int) (prompt : String) : MediaOutcome :=
  let s := ensure_discovery s0 steps
  if userId ≤ 0 then ⟨.invalidUser, [], [], [], s⟩
  else if message_too_short prompt 5 then ⟨.promptTooShort, [], [], [], s⟩
  else
    let chk := check_user_limit s.quota userId today "video_gen" dbFails limits 1000
    let s1 : SysState := { s with quota := chk.2 }
    if !chk.1.1 then ⟨.quotaRefused chk.1.2, [], [], [], s1⟩
    else
      let provs := get_available_providers s1 .video
      if provs.isEmpty then ⟨.noProvidersAvailable, [], [], [], s1⟩
      else
        wrap_media (request_loop .video "video_gen" 6 execp today dbFails userId provs
          s1 [] [] [])

/-! ## Helper lemmas -/

theorem setActive_discovered (c : ProviderConfig) (st : ServiceType) (v : Option String)
    (st' : ServiceType) : (setActive c st v).discovered st' = c.discovered st' := by
  cases st <;> cases st' <;> rfl

theorem setActive_active_same (c : ProviderConfig) (st : ServiceType) (v : Option String) :
    (setActive c st v).active st = v := by
  cases st <;> rfl

/-- Fields of a provider config untouched by `rotate_model` / the retry loop. -/
def coreEq (a b : ProviderConfig) : Prop :=
  a.name = b.name ∧ a.enabled = b.enabled ∧ a.usage_today = b.usage_today ∧
    a.errors_today = b.errors_today ∧ a.daily_limit = b.daily_limit ∧
    a.last_error = b.last_error ∧ ∀ st', a.discovered st' = b.discovered st'

theorem coreEq_refl (a : ProviderConfig) : coreEq a a :=
  ⟨rfl, rfl, rfl, rfl, rfl, rfl, fun _ => rfl⟩

theorem coreEq_trans {a b c : ProviderConfig} (h1 : coreEq a b) (h2 : coreEq b c) :
    coreEq a c := by
  obtain ⟨n1, e1, u1, r1, d1, l1, s1⟩ := h1
  obtain ⟨n2, e2, u2, r2, d2, l2, s2⟩ := h2
  exact ⟨n1.trans n2, e1.trans e2, u1.trans u2, r1.trans r2, d1.trans d2, l1.trans l2,
    fun st' => (s1 st').trans (s2 st')⟩

theorem setActive_coreEq (c : ProviderConfig) (st : ServiceType) (v : Option String) :
    coreEq (setActive c st v) c := by
  refine ⟨?_, ?_, ?_, ?_, ?_, ?_, setActive_discovered c st v⟩ <;> cases st <;> rfl

theorem rotate_model_snd_coreEq (cfg : ProviderConfig) (st : ServiceType)
    (cur : Option String) : coreEq (rotate_model cfg st cur).2 cfg := by
  rcases hD : cfg.discovered st with _ | ⟨m0, ms⟩
  · simp [rotate_model, hD]; exact coreEq_refl cfg
  · simp only [rotate_model, hD]
    exact setActive_coreEq cfg st _

/-! Stability of the priority sort: filtering by any priority value commutes
with the sort, i.e. the relative order of equal-priority models is the
discovery order. -/

theorem filter_orderedInsert (x : ModelInfo) (l : List ModelInfo) (k : Nat) :
    (List.orderedInsert prioLe x l).filter (fun m => m.priority == k) =
      if x.priority == k then x :: l.filter (fun m => m.priority == k)
      else l.filter (fun m => m.priority == k) := by
  induction l with
  | nil => simp [List.filter_cons]
  | cons y ys ih =>
    by_cases hxy : prioLe x y
    · simp [List.orderedInsert, hxy, List.filter_cons]
    · have hlt : y.priority < x.priority := by
        unfold prioLe at hxy; omega
      simp only [List.orderedInsert, if_neg hxy, List.filter_cons, ih]
      by_cases hx : x.priority = k
      · have hy : ¬(y.priority = k) := by omega
        simp [hx, hy, List.filter_cons]
      · by_cases hy : y.priority = k <;> simp [hx, hy, List.filter_cons]

theorem filter_sortByPriority (l : List ModelInfo) (k : Nat) :
    (sortByPriority l).filter (fun m => m.priority == k) =
      l.filter (fun m => m.priority == k) := by
  induction l with
  | nil => rfl
  | cons x xs ih =>
    simp only [sortByPriority, List.insertionSort] at *
    rw [filter_orderedInsert]
    by_cases hx : x.priority = k
    · simp [hx, ih, List.filter_cons]
    · simp [hx, ih, List.filter_cons]

theorem sorted_sortByPriority (l : List ModelInfo) : List.Sorted prioLe (sortByPriority l) :=
  List.sorted_insertionSort prioLe l

theorem pyMinPriority_eq_self (x : ModelInfo) (xs : List ModelInfo)
    (h : ∀ m ∈ xs, x.priority ≤ m.priority) : pyMinPriority x xs = x := by
  induction xs with
  | nil => rfl
  | cons y ys ih =>
    have hy : ¬(y.priority < x.priority) := Nat.not_lt.mpr (h y (by simp))
    have : pyMinPriority x (y :: ys) = pyMinPriority x ys := by
      simp [pyMinPriority, List.foldl, if_neg hy]
    rw [this]
    exact ih (fun m hm => h m (by simp [hm]))

/-! Properties of the rotation index search. -/

theorem find_model_index_some (models : List ModelInfo) (cur : String) (i : Nat)
    (h : find_model_index models cur = some i) :
    i < models.length ∧ ∃ mi, models.get? i = some mi ∧ mi.name = cur := by
  induction models generalizing i with
  | nil => simp [find_model_index] at h
  | cons m ms ih =>
    by_cases hm : m.name == cur
    · simp only [find_model_index, if_pos hm] at h
      cases h
      exact ⟨Nat.succ_pos _, m, rfl, eq_of_beq hm⟩
    · simp only [find_model_index, if_neg hm, Option.map_eq_some'] at h
      obtain ⟨j, hj, rfl⟩ := h
      obtain ⟨hlt, mi, hget, hname⟩ := ih j hj
      exact ⟨Nat.succ_lt_succ hlt, mi, hget, hname⟩

theorem find_model_index_isSome (models : List ModelInfo) (cur : String)
    (h : cur ∈ models.map ModelInfo.name) : ∃ i, find_model_index models cur = some i := by
  induction models with
  | nil => simp at h
  | cons m ms ih =>
    by_cases hm : m.name == cur
    · exact ⟨0, by simp [find_model_index, hm]⟩
    · have : cur ∈ ms.map ModelInfo.name := by
        rcases List.mem_map.mp h with ⟨a, ha, rfl⟩
        rcases List.mem_cons.mp ha with h1 | h2
        · subst h1; simp at hm
        · exact List.mem_map.mpr ⟨a, h2, rfl⟩
      obtain ⟨j, hj⟩ := ih this
      exact ⟨j + 1, by simp [find_model_index, hm, hj]⟩

/-- On a singleton ranked list, rotating away from the ranked model wraps
around to the very same model. -/
theorem rotate_model_singleton (cfg : ProviderConfig) (st : ServiceType) (m : ModelInfo)
    (hD : cfg.discovered st = [m]) (hne : m.name ≠ "") :
    (rotate_model cfg st (some m.name)).1 = some m.name := by
  simp only [rotate_model, hD]
  have h1 : optFalsy (some m.name) = false := by simp [optFalsy, hne]
  have h2 : ([m].map ModelInfo.name).contains m.name = true := by simp
  have h3 : find_model_index [m] m.name = some 0 := by simp [find_model_index]
  simp [h1, h2, h3]

/-- On a ranked list of at least two models with pairwise-distinct non-empty
names, rotation always produces a model different from the current one. -/
theorem rotate_model_ne (cfg : ProviderConfig) (st : ServiceType) (c : String)
    (m0 m1 : ModelInfo) (ms : List ModelInfo)
    (hD : cfg.discovered st = m0 :: m1 :: ms)
    (hnd : ((m0 :: m1 :: ms).map ModelInfo.name).Nodup)
    (hne : ∀ m ∈ m0 :: m1 :: ms, m.name ≠ "") :
    ∃ n, (rotate_model cfg st (some c)).1 = some n ∧ n ≠ c ∧
      n ∈ (m0 :: m1 :: ms).map ModelInfo.name := by
  have hm0 : m0.name ∈ (m0 :: m1 :: ms).map ModelInfo.name := by simp
  have hkey : (rotate_model cfg st (some c)).1 =
      some (if (optFalsy (some c) || !((m0 :: m1 :: ms).map ModelInfo.name).contains c) = true
            then m0.name
            else
              match find_model_index (m0 :: m1 :: ms) c with
              | none => m0.name
              | some i =>
                if (m0 :: m1 :: ms).length - 1 ≤ i then m0.name
                else (((m0 :: m1 :: ms).get? (i + 1)).getD m0).name) := by
    simp only [rotate_model, hD, Option.getD_some]
  cases hb : (optFalsy (some c) || !((m0 :: m1 :: ms).map ModelInfo.name).contains c) with
  | true =>
    refine ⟨m0.name, ?_, ?_, hm0⟩
    · rw [hkey, hb, if_pos rfl]
    · rcases Bool.or_eq_true_iff.mp hb with hfal | hnc
      · have hc : c = "" := by simpa [optFalsy] using hfal
        subst hc
        exact hne m0 (by simp)
      · intro hEq
        have hmem : ((m0 :: m1 :: ms).map ModelInfo.name).contains c = true := by
          subst hEq
          simpa using hm0
        rw [hmem] at hnc
        simp at hnc
  | false =>
    have hif : ¬((optFalsy (some c) ||
        !((m0 :: m1 :: ms).map ModelInfo.name).contains c) = true) := by
      rw [hb]; simp
    have hcontains : ((m0 :: m1 :: ms).map ModelInfo.name).contains c = true := by
      rcases Bool.or_eq_false_iff.mp hb with ⟨_, hnc⟩
      cases h : ((m0 :: m1 :: ms).map ModelInfo.name).contains c
      · rw [h] at hnc; simp at hnc
      · rfl
    have hcmem : c ∈ (m0 :: m1 :: ms).map ModelInfo.name := by simpa using hcontains
    obtain ⟨i, hfind⟩ := find_model_index_isSome _ c hcmem
    obtain ⟨hilt, mi, hget, hmiName⟩ := find_model_index_some _ c i hfind
    have hnamesGet : ((m0 :: m1 :: ms).map ModelInfo.name).get? i = some c := by
      rw [List.get?_map, hget]
      simp [hmiName]
    by_cases hlast : (m0 :: m1 :: ms).length - 1 ≤ i
    · refine ⟨m0.name, ?_, ?_, hm0⟩
      · rw [hkey, if_neg hif, hfind]
        simp only []
        rw [if_pos hlast]
      · intro hEq
        have hget0 : ((m0 :: m1 :: ms).map ModelInfo.name).get? 0 = some c := by
          simp [← hEq]
        have h0i : (0 : Nat) = i := by
          apply @List.getElem?_inj _ 0 i ((m0 :: m1 :: ms).map ModelInfo.name)
            (by simp) hnd
          rw [← List.get?_eq_getElem?, ← List.get?_eq_getElem?, hget0, hnamesGet]
        have hlen2 : (m0 :: m1 :: ms).length = ms.length + 2 := by simp
        omega
    · have hi1 : i + 1 < (m0 :: m1 :: ms).length := by omega
      obtain ⟨mi1, hget1⟩ : ∃ x, (m0 :: m1 :: ms).get? (i + 1) = some x := by
        rw [List.get?_eq_get hi1]
        exact ⟨_, rfl⟩
      refine ⟨mi1.name, ?_, ?_, List.mem_map.mpr ⟨mi1, List.get?_mem hget1, rfl⟩⟩
      · rw [hkey, if_neg hif, hfind]
        simp only []
        rw [if_neg hlast, hget1]
        rfl
      · intro hEq
        have hget1x : ((m0 :: m1 :: ms).map ModelInfo.name).get? (i + 1) = some c := by
          rw [List.get?_map, hget1]
          simp [hEq]
        have hii : i + 1 = i := by
          apply @List.getElem?_inj _ (i + 1) i ((m0 :: m1 :: ms).map ModelInfo.name)
            ?_ hnd
          · rw [← List.get?_eq_getElem?, ← List.get?_eq_getElem?, hget1x, hnamesGet]
          · simpa using hi1
        omega

theorem resolve_current_coreEq (stT : ServiceType) (cur : Option String)
    (cfg : ProviderConfig) (cur' : String) (cfg1 : ProviderConfig)
    (h : resolve_current stT cur cfg = some (cur', cfg1)) : coreEq cfg1 cfg := by
  unfold resolve_current at h
  by_cases hf : optFalsy cur = true
  · rw [if_pos hf] at h
    rcases hD : cfg.discovered stT with _ | ⟨m0, ms⟩ <;> rw [hD] at h
    · cases h
    · simp only [Option.some.injEq, Prod.mk.injEq] at h
      rw [← h.2]
      exact setActive_coreEq cfg stT (some m0.name)
  · rw [if_neg hf] at h
    simp only [Option.some.injEq, Prod.mk.injEq] at h
    rw [← h.2]
    exact coreEq_refl cfg

theorem resolve_current_isSome (stT : ServiceType) (cur : Option String)
    (cfg : ProviderConfig)
    (h : cfg.discovered stT ≠ [] ∨ optFalsy cur = false) :
    ∃ cur' cfg1, resolve_current stT cur cfg = some (cur', cfg1) := by
  unfold resolve_current
  by_cases hf : optFalsy cur = true
  · rw [if_pos hf]
    rcases hD : cfg.discovered stT with _ | ⟨m0, ms⟩
    · rcases h with h | h
      · exact absurd hD h
      · rw [hf] at h; cases h
    · exact ⟨m0.name, _, rfl⟩
  · rw [if_neg hf]
    exact ⟨_, _, rfl⟩

theorem exec_loop_coreEq (stT : ServiceType) (p : Provider)
    (execf : Nat → String → Outcome) (maxR : Nat) :
    ∀ (rem idx : Nat) (cur : Option String) (cfg : ProviderConfig) (calls rots : Nat),
      coreEq (exec_fallback_loop stT p execf maxR rem idx cur cfg calls rots).cfg cfg := by
  intro rem
  induction rem with
  | zero => intro idx cur cfg calls rots; exact coreEq_refl _
  | succ rem ih =>
    intro idx cur cfg calls rots
    rcases hres : resolve_current stT cur cfg with _ | ⟨cur', cfg1⟩
    · simp only [exec_fallback_loop, hres]
      exact coreEq_refl _
    · have hcore1 : coreEq cfg1 cfg := resolve_current_coreEq stT cur cfg cur' cfg1 hres
      rcases hex : execf idx cur' with res | msg
      · simp only [exec_fallback_loop, hres, hex]
        exact hcore1
      · by_cases hq : (is_quota_error msg || is_model_error msg) = true
        · have hrotCore : coreEq (rotate_model cfg1 stT (some cur')).2 cfg :=
            coreEq_trans (rotate_model_snd_coreEq cfg1 stT (some cur')) hcore1
          rcases hrot : (rotate_model cfg1 stT (some cur')).1 with _ | n
          · simp only [exec_fallback_loop, hres, hex, if_pos hq, hrot]
            exact hrotCore
          · by_cases hcnd : (n != "" && n != cur') = true
            · simp only [exec_fallback_loop, hres, hex, if_pos hq, hrot, if_pos hcnd]
              exact coreEq_trans (ih (idx + 1) (some n) _ (calls + 1) (rots + 1)) hrotCore
            · simp only [exec_fallback_loop, hres, hex, if_pos hq, hrot, if_neg hcnd]
              exact hrotCore
        · simp only [exec_fallback_loop, hres, hex, if_neg hq]
          exact hcore1

theorem exec_loop_all_quota (stT : ServiceType) (p : Provider)
    (execf : Nat → String → Outcome) (maxR : Nat)
    (m0 m1 : ModelInfo) (ms : List ModelInfo)
    (hnd : ((m0 :: m1 :: ms).map ModelInfo.name).Nodup)
    (hne : ∀ m ∈ m0 :: m1 :: ms, m.name ≠ "")
    (hexec : ∀ i m, ∃ msg, execf i m = .err msg ∧
      (is_quota_error msg || is_model_error msg) = true) :
    ∀ (rem idx : Nat) (cur : Option String) (cfg : ProviderConfig) (calls rots : Nat),
      cfg.discovered stT = m0 :: m1 :: ms →
      (exec_fallback_loop stT p execf maxR rem idx cur cfg calls rots).calls = calls + rem ∧
      (exec_fallback_loop stT p execf maxR rem idx cur cfg calls rots).result =
        .error (all_failed_msg p maxR) := by
  intro rem
  induction rem with
  | zero => intro idx cur cfg calls rots _; exact ⟨rfl, rfl⟩
  | succ rem ih =>
    intro idx cur cfg calls rots hD
    obtain ⟨cur', cfg1, hres⟩ :=
      resolve_current_isSome stT cur cfg (Or.inl (by rw [hD]; exact List.cons_ne_nil _ _))
    have hcore1 : coreEq cfg1 cfg := resolve_current_coreEq stT cur cfg cur' cfg1 hres
    have hD1 : cfg1.discovered stT = m0 :: m1 :: ms := by
      rw [hcore1.2.2.2.2.2.2 stT, hD]
    obtain ⟨msg, herr, hq⟩ := hexec idx cur'
    obtain ⟨n, hrot, hnne, hnmem⟩ := rotate_model_ne cfg1 stT cur' m0 m1 ms hD1 hnd hne
    have hnE : n ≠ "" := by
      rcases List.mem_map.mp hnmem with ⟨mm, hmm, rfl⟩
      exact hne mm hmm
    have hcnd : (n != "" && n != cur') = true := by
      simp [bne_iff_ne, hnE, hnne]
    have hrotD : ((rotate_model cfg1 stT (some cur')).2).discovered stT = m0 :: m1 :: ms := by
      rw [(rotate_model_snd_coreEq cfg1 stT (some cur')).2.2.2.2.2.2 stT, hD1]
    obtain ⟨ihc, ihr⟩ := ih (idx + 1) (some n) (rotate_model cfg1 stT (some cur')).2
      (calls + 1) (rots + 1) hrotD
    constructor
    · simp only [exec_fallback_loop, hres, herr, if_pos hq, hrot, if_pos hcnd]
      omega
    · simp only [exec_fallback_loop, hres, herr, if_pos hq, hrot, if_pos hcnd]
      exact ihr

theorem exec_loop_all_err (stT : ServiceType) (p : Provider)
    (execf : Nat → String → Outcome) (maxR : Nat)
    (hall : ∀ i m, ∃ msg, execf i m = .err msg) :
    ∀ (rem idx : Nat) (cur : Option String) (cfg : ProviderConfig) (calls rots : Nat),
      ∃ e, (exec_fallback_loop stT p execf maxR rem idx cur cfg calls rots).result =
        .error e := by
  intro rem
  induction rem with
  | zero => intro idx cur cfg calls rots; exact ⟨_, rfl⟩
  | succ rem ih =>
    intro idx cur cfg calls rots
    rcases hres : resolve_current stT cur cfg with _ | ⟨cur', cfg1⟩
    · exact ⟨all_failed_msg p maxR, by simp only [exec_fallback_loop, hres]⟩
    · obtain ⟨msg, herr⟩ := hall idx cur'
      by_cases hq : (is_quota_error msg || is_model_error msg) = true
      · rcases hrot : (rotate_model cfg1 stT (some cur')).1 with _ | n
        · exact ⟨all_failed_msg p maxR,
            by simp only [exec_fallback_loop, hres, herr, if_pos hq, hrot]⟩
        · by_cases hcnd : (n != "" && n != cur') = true
          · obtain ⟨e, he⟩ := ih (idx + 1) (some n) (rotate_model cfg1 stT (some cur')).2
              (calls + 1) (rots + 1)
            refine ⟨e, ?_⟩
            simp only [exec_fallback_loop, hres, herr, if_pos hq, hrot, if_pos hcnd]
            exact he
          · exact ⟨all_failed_msg p maxR, by simp only [exec_fallback_loop, hres, herr,
              if_pos hq, hrot, if_neg hcnd]⟩
      · exact ⟨all_failed_msg p maxR,
          by simp only [exec_fallback_loop, hres, herr, if_neg hq]⟩

theorem execute_with_fallback_all_err (cfg : ProviderConfig) (stT : ServiceType)
    (p : Provider) (execf : Nat → String → Outcome) (maxR : Nat)
    (hall : ∀ i m, ∃ msg, execf i m = .err msg) :
    ∃ e, (execute_with_fallback cfg stT p execf maxR).result = .error e := by
  unfold execute_with_fallback
  by_cases hen : cfg.enabled = true
  · rw [hen]
    exact exec_loop_all_err stT p execf maxR hall maxR 0 (cfg.active stT) cfg 0 0
  · rw [Bool.not_eq_true] at hen
    rw [hen]
    exact ⟨_, rfl⟩

/-- The attempt budget is exhausted in full when the backend has at least two
ranked models with distinct non-empty names and every call fails with a
quota-style (or model-unavailable) error. -/
theorem execute_with_fallback_quota_budget (cfg : ProviderConfig) (stT : ServiceType)
    (p : Provider) (execf : Nat → String → Outcome) (maxR : Nat)
    (hen : cfg.enabled = true)
    (m0 m1 : ModelInfo) (ms : List ModelInfo)
    (hD : cfg.discovered stT = m0 :: m1 :: ms)
    (hnd : ((m0 :: m1 :: ms).map ModelInfo.name).Nodup)
    (hne : ∀ m ∈ m0 :: m1 :: ms, m.name ≠ "")
    (hexec : ∀ i m, ∃ msg, execf i m = .err msg ∧
      (is_quota_error msg || is_model_error msg) = true) :
    (execute_with_fallback cfg stT p execf maxR).calls = maxR ∧
    (execute_with_fallback cfg stT p execf maxR).result = .error (all_failed_msg p maxR) := by
  unfold execute_with_fallback
  rw [hen]
  have := exec_loop_all_quota stT p execf maxR m0 m1 ms hnd hne hexec maxR 0
    (cfg.active stT) cfg 0 0 hD
  simpa using this

/-- With a single ranked model, a quota-style failure makes rotation return
the very same model; the loop then breaks immediately: exactly one call. -/
theorem execute_with_fallback_singleton (cfg : ProviderConfig) (stT : ServiceType)
    (p : Provider) (execf : Nat → String → Outcome) (maxR : Nat) (m : ModelInfo)
    (hen : cfg.enabled = true) (hD : cfg.discovered stT = [m]) (hmn : m.name ≠ "")
    (hact : cfg.active stT = none ∨ cfg.active stT = some m.name)
    (hmaxR : 1 ≤ maxR)
    (hexec : ∀ i mn, ∃ msg, execf i mn = .err msg ∧
      (is_quota_error msg || is_model_error msg) = true) :
    (execute_with_fallback cfg stT p execf maxR).calls = 1 ∧
    (execute_with_fallback cfg stT p execf maxR).result = .error (all_failed_msg p maxR) := by
  obtain ⟨rem, rfl⟩ : ∃ rem, maxR = rem + 1 := ⟨maxR - 1, by omega⟩
  unfold execute_with_fallback
  rw [hen]
  have hres : resolve_current stT (cfg.active stT) cfg = some (m.name, setActive cfg stT (some m.name)) ∨
      resolve_current stT (cfg.active stT) cfg = some (m.name, cfg) := by
    rcases hact with h | h
    · left
      rw [h]
      unfold resolve_current optFalsy
      simp [hD]
    · right
      rw [h]
      unfold resolve_current optFalsy
      simp [hmn]
  obtain ⟨msg, herr, hq⟩ := hexec 0 m.name
  have hbreak : ∀ cfg1 : ProviderConfig, cfg1.discovered stT = [m] →
      resolve_current stT (cfg.active stT) cfg = some (m.name, cfg1) →
      (exec_fallback_loop stT p execf (rem + 1) (rem + 1) 0 (cfg.active stT) cfg 0 0).calls = 1 ∧
      (exec_fallback_loop stT p execf (rem + 1) (rem + 1) 0 (cfg.active stT) cfg 0 0).result =
        .error (all_failed_msg p (rem + 1)) := by
    intro cfg1 hD1 hres1
    have hrot : (rotate_model cfg1 stT (some m.name)).1 = some m.name :=
      rotate_model_singleton cfg1 stT m hD1 hmn
    have hcnd : (m.name != "" && m.name != m.name) = false := by simp
    constructor
    · simp only [exec_fallback_loop, hres1, herr, if_pos hq, hrot]
      rw [hcnd]
      simp
    · simp only [exec_fallback_loop, hres1, herr, if_pos hq, hrot]
      rw [hcnd]
      simp
  rcases hres with h | h
  · exact hbreak (setActive cfg stT (some m.name)) (by rw [setActive_discovered, hD]) h
  · exact hbreak cfg hD h

/-- A non-model error on the first attempted call abandons the backend at
once: one call, no rotation. -/
theorem execute_with_fallback_nonmodel_first (cfg : ProviderConfig) (stT : ServiceType)
    (p : Provider) (execf : Nat → String → Outcome) (maxR : Nat)
    (hen : cfg.enabled = true) (hmaxR : 1 ≤ maxR)
    (hstart : cfg.discovered stT ≠ [] ∨ optFalsy (cfg.active stT) = false)
    (hfirst : ∀ mn, ∃ msg, execf 0 mn = .err msg ∧
      is_quota_error msg = false ∧ is_model_error msg = false) :
    (execute_with_fallback cfg stT p execf maxR).calls = 1 ∧
    (execute_with_fallback cfg stT p execf maxR).rotCalls = 0 ∧
    (execute_with_fallback cfg stT p execf maxR).result = .error (all_failed_msg p maxR) := by
  obtain ⟨rem, rfl⟩ : ∃ rem, maxR = rem + 1 := ⟨maxR - 1, by omega⟩
  unfold execute_with_fallback
  rw [hen]
  obtain ⟨cur', cfg1, hres⟩ := resolve_current_isSome stT (cfg.active stT) cfg hstart
  obtain ⟨msg, herr, hq1, hq2⟩ := hfirst cur'
  have hq : ¬((is_quota_error msg || is_model_error msg) = true) := by
    rw [hq1, hq2]
    simp
  refine ⟨?_, ?_, ?_⟩ <;> simp only [exec_fallback_loop, hres, herr, if_neg hq] <;> rfl


theorem execute_with_fallback_coreEq (cfg : ProviderConfig) (stT : ServiceType)
    (p : Provider) (execf : Nat → String → Outcome) (maxR : Nat) :
    coreEq (execute_with_fallback cfg stT p execf maxR).cfg cfg := by
  unfold execute_with_fallback
  by_cases hen : cfg.enabled = true
  · rw [hen]
    exact exec_loop_coreEq stT p execf maxR maxR 0 (cfg.active stT) cfg 0 0
  · rw [Bool.not_eq_true] at hen
    rw [hen]
    exact coreEq_refl cfg

/-! Lemmas about the shared per-request provider loop. -/

theorem request_loop_trace (stT : ServiceType) (ukey : String) (maxR : Nat)
    (execp : Provider → Nat → String → Outcome) (today : String) (dbFails : Bool)
    (userId : Int) :
    ∀ (l : List ProviderConfig) (s : SysState) (c : List ProviderConfig)
      (a : List (Provider × Nat)) (e : List String),
      ∃ k,
        (request_loop stT ukey maxR execp today dbFails userId l s c a e).contacted =
          c ++ l.take k ∧
        ((request_loop stT ukey maxR execp today dbFails userId l s c a e).attempts).map
            Prod.fst = a.map Prod.fst ++ (l.take k).map ProviderConfig.name ∧
        (l ≠ [] → 1 ≤ k) := by
  intro l
  induction l with
  | nil =>
    intro s c a e
    exact ⟨0, by simp [request_loop], by simp [request_loop], fun h => absurd rfl h⟩
  | cons pc rest ih =>
    intro s c a e
    rcases her : (execute_with_fallback (s.providers pc.name) stT pc.name
        (execp pc.name) maxR).result with msg | v
    · obtain ⟨k, hk1, hk2, _⟩ := ih _ (c ++ [pc]) (a ++ [(pc.name,
        (execute_with_fallback (s.providers pc.name) stT pc.name (execp pc.name) maxR).calls)]) _
      refine ⟨k + 1, ?_, ?_, fun _ => by omega⟩
      · simp only [request_loop, her]
        rw [hk1]
        simp
      · simp only [request_loop, her]
        rw [hk2]
        simp
    · by_cases hv : (v != "") = true
      · refine ⟨1, ?_, ?_, fun _ => le_refl 1⟩
        · simp [request_loop, her, hv]
        · simp [request_loop, her, hv]
      · have hv' : (v != "") = false := by simpa using hv
        obtain ⟨k, hk1, hk2, _⟩ := ih _ (c ++ [pc]) (a ++ [(pc.name,
          (execute_with_fallback (s.providers pc.name) stT pc.name (execp pc.name) maxR).calls)]) _
        refine ⟨k + 1, ?_, ?_, fun _ => by omega⟩
        · simp only [request_loop, her, hv', Bool.false_eq_true, if_false]
          rw [hk1]
          simp
        · simp only [request_loop, her, hv', Bool.false_eq_true, if_false]
          rw [hk2]
          simp

theorem request_loop_errors_mono (stT : ServiceType) (ukey : String) (maxR : Nat)
    (execp : Provider → Nat → String → Outcome) (today : String) (dbFails : Bool)
    (userId : Int) :
    ∀ (l : List ProviderConfig) (s : SysState) (c : List ProviderConfig)
      (a : List (Provider × Nat)) (e : List String),
      ∃ t, (request_loop stT ukey maxR execp today dbFails userId l s c a e).errors =
        e ++ t := by
  intro l
  induction l with
  | nil => intro s c a e; exact ⟨[], by simp [request_loop]⟩
  | cons pc rest ih =>
    intro s c a e
    rcases her : (execute_with_fallback (s.providers pc.name) stT pc.name
        (execp pc.name) maxR).result with msg | v
    · obtain ⟨t, ht⟩ := ih _ (c ++ [pc]) _
        (e ++ [pc.name.value ++ ": " ++ String.take msg 100])
      refine ⟨[pc.name.value ++ ": " ++ String.take msg 100] ++ t, ?_⟩
      simp only [request_loop, her]
      rw [ht]
      simp
    · by_cases hv : (v != "") = true
      · exact ⟨[], by simp [request_loop, her, hv]⟩
      · have hv' : (v != "") = false := by simpa using hv
        obtain ⟨t, ht⟩ := ih _ (c ++ [pc]) _ e
        refine ⟨t, ?_⟩
        simp only [request_loop, her, hv', Bool.false_eq_true, if_false]
        rw [ht]

theorem request_loop_all_err (stT : ServiceType) (ukey : String) (maxR : Nat)
    (execp : Provider → Nat → String → Outcome) (today : String) (dbFails : Bool)
    (userId : Int)
    (hall : ∀ p i m, ∃ msg, execp p i m = .err msg) :
    ∀ (l : List ProviderConfig) (s : SysState) (c : List ProviderConfig)
      (a : List (Provider × Nat)) (e : List String),
      (request_loop stT ukey maxR execp today dbFails userId l s c a e).success = none ∧
      (request_loop stT ukey maxR execp today dbFails userId l s c a e).errors.length =
        e.length + l.length := by
  intro l
  induction l with
  | nil => intro s c a e; exact ⟨rfl, by simp [request_loop]⟩
  | cons pc rest ih =>
    intro s c a e
    obtain ⟨msg, hmsg⟩ := execute_with_fallback_all_err (s.providers pc.name) stT pc.name
      (execp pc.name) maxR (hall pc.name)
    obtain ⟨hs, hlen⟩ := ih _ (c ++ [pc]) _
      (e ++ [pc.name.value ++ ": " ++ String.take msg 100])
    constructor
    · simp only [request_loop, hmsg]
      exact hs
    · simp only [request_loop, hmsg]
      rw [hlen]
      simp
      omega


theorem updProviders_same (f : Provider → ProviderConfig) (p : Provider)
    (c : ProviderConfig) : updProviders f p c p = c := by
  simp [updProviders]

theorem updProviders_ne (f : Provider → ProviderConfig) (p : Provider)
    (c : ProviderConfig) (q : Provider) (h : q ≠ p) : updProviders f p c q = f q := by
  simp [updProviders, h]

theorem request_loop_state_untouched (stT : ServiceType) (ukey : String) (maxR : Nat)
    (execp : Provider → Nat → String → Outcome) (today : String) (dbFails : Bool)
    (userId : Int) :
    ∀ (l : List ProviderConfig) (s : SysState) (c : List ProviderConfig)
      (a : List (Provider × Nat)) (e : List String) (p : Provider),
      (∀ pc ∈ l, pc.name ≠ p) →
      (request_loop stT ukey maxR execp today dbFails userId l s c a e).state.providers p =
        s.providers p := by
  intro l
  induction l with
  | nil => intro s c a e p _; rfl
  | cons pc rest ih =>
    intro s c a e p hnames
    have hpe : p ≠ pc.name := fun h => hnames pc (by simp) h.symm
    have hrest : ∀ pc2 ∈ rest, pc2.name ≠ p := fun pc2 h2 =>
      hnames pc2 (List.mem_cons_of_mem pc h2)
    rcases her : (execute_with_fallback (s.providers pc.name) stT pc.name
        (execp pc.name) maxR).result with msg | v
    · simp only [request_loop, her]
      rw [ih _ _ _ _ p hrest]
      simp [updProviders, hpe]
    · by_cases hv : (v != "") = true
      · simp only [request_loop, her, hv, if_true]
        simp [updProviders, hpe]
      · have hv2 : (v != "") = false := by simpa using hv
        simp only [request_loop, her, hv2, Bool.false_eq_true, if_false]
        rw [ih _ _ _ _ p hrest]
        simp [updProviders, hpe]

/-! Lemmas about `get_available_providers`. -/

theorem mem_available_iff (s : SysState) (st : ServiceType) (c : ProviderConfig) :
    c ∈ get_available_providers s st ↔
      c ∈ (provider_order.map s.providers).filter (availFilter st) :=
  (List.perm_insertionSort provLe _).mem_iff

theorem available_sorted (s : SysState) (st : ServiceType) :
    List.Sorted provLe (get_available_providers s st) :=
  List.sorted_insertionSort provLe _

theorem mem_available_props (s : SysState) (st : ServiceType) (c : ProviderConfig)
    (h : c ∈ get_available_providers s st) :
    c.enabled = true ∧ c.usage_today < c.daily_limit ∧ supports c.name st = true := by
  have h2 := (mem_available_iff s st c).mp h
  obtain ⟨_, hfil⟩ := List.mem_filter.mp h2
  unfold availFilter at hfil
  simp only [Bool.and_eq_true, decide_eq_true_eq] at hfil
  exact ⟨hfil.1.1, hfil.1.2, hfil.2⟩

theorem available_names_nodup (s : SysState) (st : ServiceType)
    (hwf : ∀ q, (s.providers q).name = q) :
    ((get_available_providers s st).map ProviderConfig.name).Nodup := by
  have hperm : ((get_available_providers s st).map ProviderConfig.name).Perm
      (((provider_order.map s.providers).filter (availFilter st)).map ProviderConfig.name) :=
    (List.perm_insertionSort provLe _).map _
  rw [hperm.nodup_iff]
  have hsub : (((provider_order.map s.providers).filter (availFilter st)).map
      ProviderConfig.name).Sublist ((provider_order.map s.providers).map ProviderConfig.name) :=
    (List.filter_sublist _).map _
  refine List.Nodup.sublist hsub ?_
  have heq : (provider_order.map s.providers).map ProviderConfig.name = provider_order := by
    rw [List.map_map]
    have : (ProviderConfig.name ∘ s.providers) = id := funext fun q => hwf q
    rw [this, List.map_id]
  rw [heq]
  decide

theorem ensure_discovery_of_completed (s : SysState) (steps : Except String SysState)
    (h : s.discovery_completed = true) : ensure_discovery s steps = s := by
  unfold ensure_discovery
  simp [h]

/-! Quota bookkeeping: `N` successful commits for one `(user, day, capability)`
key starting from a fresh manager (empty cache, zero durable counts). -/

def commits (userId : Int) (today stype : String) : Nat → QuotaState
  | 0 => { cache := [], db := fun _ => 0 }
  | n + 1 => (update_user_usage (commits userId today stype n) userId today stype false).2

theorem commits_cache (u : Int) (today stype : String) :
    ∀ n, 1 ≤ n → (commits u today stype n).cache = [(cache_key u today stype, n)] := by
  intro n
  induction n with
  | zero => intro h; omega
  | succ n ih =>
    intro _
    rcases Nat.eq_zero_or_pos n with hn | hn
    · subst hn
      simp [commits, update_user_usage, od_find, od_set]
    · have hc := ih hn
      simp only [commits, update_user_usage]
      rw [hc]
      simp [od_find, od_set, List.find?]

theorem commits_db (u : Int) (today stype : String) :
    ∀ n, (commits u today stype n).db (cache_key u today stype) = n := by
  intro n
  induction n with
  | zero => rfl
  | succ n ih =>
    simp only [commits, update_user_usage]
    simp [ih]

theorem check_commits (u : Int) (today stype : String) (limits : String → Nat) (N : Nat) :
    (check_user_limit (commits u today stype N) u today stype false limits 1000).1 =
      if limits stype ≤ N then (false, 0) else (true, limits stype - N) := by
  rcases Nat.eq_zero_or_pos N with hN | hN
  · subst hN
    simp only [check_user_limit, commits, od_find, List.find?, commits_db]
    by_cases hl : limits stype ≤ 0
    · have h0 : limits stype = 0 := by omega
      simp [h0]
    · have : ¬((0 : Nat) ≥ limits stype) := by omega
      simp only [ge_iff_le]
      rw [if_neg hl, if_neg this]
      simp
  · have hc := commits_cache u today stype N hN
    have hfind : od_find (commits u today stype N).cache (cache_key u today stype) = some N := by
      rw [hc]
      simp [od_find, List.find?]
    simp only [check_user_limit, hfind]
    by_cases hl : limits stype ≤ N
    · rw [if_pos hl]
      have : N ≥ limits stype := hl
      simp [this]
    · rw [if_neg hl]
      have : ¬(N ≥ limits stype) := hl
      simp [this]


theorem available_quota_irrel (s : SysState) (q : QuotaState) (st : ServiceType) :
    get_available_providers { s with quota := q } st = get_available_providers s st := rfl

/-- Reduction of `chat_with_ai` on the main path (valid input, quota allowed,
providers available). -/
theorem chat_with_ai_main (s0 : SysState) (steps : Except String SysState)
    (execp : Provider → Nat → String → Outcome) (today : String)
    (limits : String → Nat) (dbFails : Bool) (userId : Int) (message : String)
    (hdisc : s0.discovery_completed = true)
    (huser : 0 < userId)
    (hmsg1 : (message == "") = false) (hmsg2 : (pyStrip message == "") = false)
    (hallow : (check_user_limit s0.quota userId today "ai_chat" dbFails limits 1000).1.1 = true)
    (hprovs : (get_available_providers s0 .chat).isEmpty = false) :
    chat_with_ai s0 steps execp today limits dbFails userId message =
      wrap_chat (request_loop .chat "ai_chat" 16 execp today dbFails userId
        (get_available_providers s0 .chat)
        { s0 with quota :=
            (check_user_limit s0.quota userId today "ai_chat" dbFails limits 1000).2 }
        [] [] []) := by
  have hu : ¬(userId ≤ 0) := by omega
  simp only [chat_with_ai, ensure_discovery_of_completed s0 steps hdisc, if_neg hu,
    hmsg1, hmsg2, Bool.or_self, Bool.false_eq_true, if_false, hallow, Bool.not_true,
    available_quota_irrel, hprovs]

/-- Reduction of `chat_with_ai` when the quota check refuses. -/
theorem chat_with_ai_refusal (s0 : SysState) (steps : Except String SysState)
    (execp : Provider → Nat → String → Outcome) (today : String)
    (limits : String → Nat) (dbFails : Bool) (userId : Int) (message : String)
    (hdisc : s0.discovery_completed = true)
    (huser : 0 < userId)
    (hmsg1 : (message == "") = false) (hmsg2 : (pyStrip message == "") = false)
    (hdeny : (check_user_limit s0.quota userId today "ai_chat" dbFails limits 1000).1.1 =
      false) :
    chat_with_ai s0 steps execp today limits dbFails userId message =
      ⟨.quotaRefused
          (check_user_limit s0.quota userId today "ai_chat" dbFails limits 1000).1.2,
        [], [], [],
        { s0 with quota :=
            (check_user_limit s0.quota userId today "ai_chat" dbFails limits 1000).2 }⟩ := by
  have hu : ¬(userId ≤ 0) := by omega
  simp only [chat_with_ai, ensure_discovery_of_completed s0 steps hdisc, if_neg hu,
    hmsg1, hmsg2, Bool.or_self, Bool.false_eq_true, if_false, hdeny, Bool.not_false,
    if_true]

/-- Reduction of `generate_image` on the main path. -/
theorem generate_image_main (s0 : SysState) (steps : Except String SysState)
    (execp : Provider → Nat → String → Outcome) (today : String)
    (limits : String → Nat) (dbFails : Bool) (userId : Int) (prompt : String)
    (hdisc : s0.discovery_completed = true)
    (huser : 0 < userId)
    (hlen : message_too_short prompt 3 = false)
    (hallow : (check_user_limit s0.quota userId today "image_gen" dbFails limits 1000).1.1 =
      true)
    (hprovs : (get_available_providers s0 .image).isEmpty = false) :
    generate_image s0 steps execp today limits dbFails userId prompt =
      wrap_media (request_loop .image "image_gen" 6 execp today dbFails userId
        (get_available_providers s0 .image)
        { s0 with quota :=
            (check_user_limit s0.quota userId today "image_gen" dbFails limits 1000).2 }
        [] [] []) := by
  have hu : ¬(userId ≤ 0) := by omega
  simp only [generate_image, ensure_discovery_of_completed s0 steps hdisc, if_neg hu,
    hlen, Bool.false_eq_true, if_false, hallow, Bool.not_true, available_quota_irrel,
    hprovs]

/-- Reduction of `generate_video` on the main path. -/
theorem generate_video_main (s0 : SysState) (steps : Except String SysState)
    (execp : Provider → Nat → String → Outcome) (today : String)
    (limits : String → Nat) (dbFails : Bool) (userId : Int) (prompt : String)
    (hdisc : s0.discovery_completed = true)
    (huser : 0 < userId)
    (hlen : message_too_short prompt 5 = false)
    (hallow : (check_user_limit s0.quota userId today "video_gen" dbFails limits 1000).1.1 =
      true)
    (hprovs : (get_available_providers s0 .video).isEmpty = false) :
    generate_video s0 steps execp today limits dbFails userId prompt =
      wrap_media (request_loop .video "video_gen" 6 execp today dbFails userId
        (get_available_providers s0 .video)
        { s0 with quota :=
            (check_user_limit s0.quota userId today "video_gen" dbFails limits 1000).2 }
        [] [] []) := by
  have hu : ¬(userId ≤ 0) := by omega
  simp only [generate_video, ensure_discovery_of_completed s0 steps hdisc, if_neg hu,
    hlen, Bool.false_eq_true, if_false, hallow, Bool.not_true, available_quota_irrel,
    hprovs]


/-! ## Claim theorems -/

/-- C10: if the durable store raises while the quota check hydrates a user's
count (a cache miss with a failing read), `check_user_limit` fails open:
it returns `allowed = true` with `remaining = 999` and leaves the quota state
unchanged, so the request proceeds. -/
theorem c10_db_failure_fails_open (q : QuotaState) (userId : Int) (today stype : String)
    (limits : String → Nat) (maxCache : Nat)
    (hmiss : od_find q.cache (cache_key userId today stype) = none) :
    check_user_limit q userId today stype true limits maxCache = ((true, 999), q) := by
  simp [check_user_limit, hmiss]

theorem c10_witness :
    od_find ({ cache := [], db := fun _ => 0 } : QuotaState).cache
        (cache_key 7 "2026-10-12" "ai_chat") = none ∧
    check_user_limit { cache := [], db := fun _ => 0 } 7 "2026-10-12" "ai_chat" true
        (fun _ => 20) 1000 = ((true, 999), { cache := [], db := fun _ => 0 }) :=
  ⟨rfl, c10_db_failure_fails_open { cache := [], db := fun _ => 0 } 7 "2026-10-12"
    "ai_chat" (fun _ => 20) 1000 rfl⟩

/-- C6: after `N` successful commits for `(user, day, capability)` with limit
`L = limits stype`, the quota check returns allowed with `remaining = L - N`
while `N < L`, and not-allowed with `remaining = 0` once `N` reaches `L`;
in the latter case `chat_with_ai` returns the quota refusal before contacting
any backend (no provider contacted, no call attempted). -/
theorem c6_quota_monotone (limits : String → Nat) (u : Int) (today stype : String)
    (N : Nat) :
    (N < limits stype →
      (check_user_limit (commits u today stype N) u today stype false limits 1000).1 =
        (true, limits stype - N)) ∧
    (limits stype ≤ N →
      (check_user_limit (commits u today stype N) u today stype false limits 1000).1 =
        (false, 0)) ∧
    (∀ (s0 : SysState) (steps : Except String SysState)
       (execp : Provider → Nat → String → Outcome) (message : String),
      s0.discovery_completed = true → 0 < u →
      (message == "") = false → (pyStrip message == "") = false →
      s0.quota = commits u today "ai_chat" N → limits "ai_chat" ≤ N →
      (chat_with_ai s0 steps execp today limits false u message).result =
          .quotaRefused 0 ∧
      (chat_with_ai s0 steps execp today limits false u message).contacted = [] ∧
      (chat_with_ai s0 steps execp today limits false u message).attempts = []) := by
  refine ⟨?_, ?_, ?_⟩
  · intro h
    rw [check_commits]
    rw [if_neg (by omega)]
  · intro h
    rw [check_commits]
    rw [if_pos h]
  · intro s0 steps execp message hdisc hu hm1 hm2 hq hlim
    have hdeny : (check_user_limit s0.quota u today "ai_chat" false limits 1000).1 =
        (false, 0) := by
      rw [hq, check_commits, if_pos hlim]
    have h1 : (check_user_limit s0.quota u today "ai_chat" false limits 1000).1.1 =
        false := by rw [hdeny]
    have hred := chat_with_ai_refusal s0 steps execp today limits false u message
      hdisc hu hm1 hm2 h1
    rw [hred]
    refine ⟨?_, rfl, rfl⟩
    show ChatResult.quotaRefused
      (check_user_limit s0.quota u today "ai_chat" false limits 1000).1.2 = _
    rw [hdeny]

theorem c6_witness :
    ((check_user_limit (commits 5 "2026-01-01" "ai_chat" 1) 5 "2026-01-01" "ai_chat"
        false (fun _ => 20) 1000).1 = (true, 19)) ∧
    ((check_user_limit (commits 5 "2026-01-01" "ai_chat" 20) 5 "2026-01-01" "ai_chat"
        false (fun _ => 20) 1000).1 = (false, 0)) ∧
    ((chat_with_ai
        { providers := fun p => init_provider p none 100,
          quota := commits 5 "2026-01-01" "ai_chat" 20,
          discovery_completed := true }
        (Except.error "ignored") (fun _ _ _ => Outcome.err "boom") "2026-01-01"
        (fun _ => 20) false 5 "hello").result = .quotaRefused 0) := by
  refine ⟨?_, ?_, ?_⟩
  · exact (c6_quota_monotone (fun _ => 20) 5 "2026-01-01" "ai_chat" 1).1 (by decide)
  · exact (c6_quota_monotone (fun _ => 20) 5 "2026-01-01" "ai_chat" 20).2.1 (by decide)
  · exact ((c6_quota_monotone (fun _ => 20) 5 "2026-01-01" "ai_chat" 20).2.2
      { providers := fun p => init_provider p none 100,
        quota := commits 5 "2026-01-01" "ai_chat" 20,
        discovery_completed := true }
      (Except.error "ignored") (fun _ _ _ => Outcome.err "boom") "hello"
      rfl (by decide) (by decide) (by decide) rfl (by decide)).1


theorem ensure_discovery_flag (s : SysState) (steps : Except String SysState) :
    (ensure_discovery s steps).discovery_completed = true := by
  unfold ensure_discovery
  by_cases h : s.discovery_completed = true
  · simp [h]
  · rw [Bool.not_eq_true] at h
    simp [h]

theorem ensure_discovery_error_eq (s : SysState) (e : String) :
    ensure_discovery s (Except.error e) =
      { s with discovery_completed := true } ∨
    ensure_discovery s (Except.error e) = s := by
  unfold ensure_discovery setup_and_discover_async
  by_cases h : s.discovery_completed = true
  · right; simp [h]
  · left; rw [Bool.not_eq_true] at h; simp [h]

theorem init_provider_disabled (p : Provider) (key : Option String) (lim : Nat) :
    (init_provider p key lim).enabled = false := by
  unfold init_provider validate_key
  rcases key with _ | k
  · rfl
  · by_cases h1 : (pyStrip k == "") = true
    · simp [h1]
    · by_cases h2 : k.length < 10
      · simp [h1, h2]
      · simp [h1, h2]

theorem init_provider_discovered (p : Provider) (key : Option String) (lim : Nat)
    (st : ServiceType) : (init_provider p key lim).discovered st = [] := by
  unfold init_provider validate_key
  rcases key with _ | k
  · cases st <;> rfl
  · by_cases h1 : (pyStrip k == "") = true
    · simp only [h1, if_true]
      cases st <;> rfl
    · by_cases h2 : k.length < 10 <;>
        simp only [h1, h2, Bool.false_eq_true, if_false, if_true] <;>
        cases st <;> rfl

theorem available_all_disabled (s : SysState) (st : ServiceType)
    (h : ∀ p, (s.providers p).enabled = false) :
    get_available_providers s st = [] := by
  unfold get_available_providers
  have hf : (provider_order.map s.providers).filter (availFilter st) = [] := by
    rw [List.filter_eq_nil_iff]
    intro c hc
    rcases List.mem_map.mp hc with ⟨p, _, rfl⟩
    simp [availFilter, h p]
  rw [hf]
  rfl

theorem check_fresh_allowed (u : Int) (today stype : String) (limits : String → Nat)
    (mc : Nat) (h : 0 < limits stype) :
    (check_user_limit { cache := [], db := fun _ => 0 } u today stype false limits
        mc).1.1 = true := by
  have hge : ¬((0 : Nat) ≥ limits stype) := by omega
  simp [check_user_limit, od_find, hge]

/-- Reduction of `chat_with_ai` when no provider is available after discovery. -/
theorem chat_with_ai_no_providers (s0 : SysState) (steps : Except String SysState)
    (execp : Provider → Nat → String → Outcome) (today : String)
    (limits : String → Nat) (dbF : Bool) (userId : Int) (message : String)
    (hu : 0 < userId)
    (hm1 : (message == "") = false) (hm2 : (pyStrip message == "") = false)
    (hallow : (check_user_limit (ensure_discovery s0 steps).quota userId today "ai_chat"
        dbF limits 1000).1.1 = true)
    (hprovs : (get_available_providers (ensure_discovery s0 steps) .chat).isEmpty =
        true) :
    chat_with_ai s0 steps execp today limits dbF userId message =
      ⟨.noProvidersAvailable, [], [], [],
        { ensure_discovery s0 steps with quota :=
            (check_user_limit (ensure_discovery s0 steps).quota userId today "ai_chat"
              dbF limits 1000).2 }⟩ := by
  have hule : ¬(userId ≤ 0) := by omega
  simp only [chat_with_ai, if_neg hule, hm1, hm2, Bool.or_self, Bool.false_eq_true,
    if_false, hallow, Bool.not_true, available_quota_irrel, hprovs, if_true]

/-- C3 counterexample: when the discovery body fails wholesale (an exception
escapes the step sequence), `ensure_discovery` still sets the
`discovery_completed` flag to `true` — it is not left `false` as claimed
(the exception is swallowed inside `_setup_and_discover_async`, and
`ensure_discovery` assigns the flag unconditionally afterwards). -/
theorem c3_counterexample :
    ¬((ensure_discovery (init_state (fun _ => none) (fun _ => 100))
        (Except.error "total discovery failure")).discovery_completed = false) := by
  decide

/-- C3 amended: a total discovery failure is caught inside the discovery
routine (never reaching the caller); `ensure_discovery` then marks
`discovery_completed = true` (so discovery is not re-run), no provider was
enabled, and a subsequent chat request returns the structured
"no providers available" result instead of crashing. -/
theorem c3_discovery_failure_contained (keys : Provider → Option String)
    (lims : Provider → Nat) (e : String)
    (execp : Provider → Nat → String → Outcome) (today : String)
    (limits : String → Nat) (u : Int) (message : String)
    (hu : 0 < u) (hm1 : (message == "") = false)
    (hm2 : (pyStrip message == "") = false) (hlim : 0 < limits "ai_chat") :
    (ensure_discovery (init_state keys lims) (Except.error e)).discovery_completed =
        true ∧
    (∀ st, get_available_providers
        (ensure_discovery (init_state keys lims) (Except.error e)) st = []) ∧
    (chat_with_ai (init_state keys lims) (Except.error e) execp today limits false u
        message).result = .noProvidersAvailable ∧
    (chat_with_ai (init_state keys lims) (Except.error e) execp today limits false u
        message).state.discovery_completed = true ∧
    (chat_with_ai (init_state keys lims) (Except.error e) execp today limits false u
        message).contacted = [] := by
  have hprovEq : (ensure_discovery (init_state keys lims) (.error e)).providers =
      (init_state keys lims).providers := by
    rcases ensure_discovery_error_eq (init_state keys lims) e with h | h <;> rw [h]
  have hquotaEq : (ensure_discovery (init_state keys lims) (.error e)).quota =
      (init_state keys lims).quota := by
    rcases ensure_discovery_error_eq (init_state keys lims) e with h | h <;> rw [h]
  have hdisabled : ∀ p,
      ((ensure_discovery (init_state keys lims) (.error e)).providers p).enabled =
        false := by
    intro p
    rw [hprovEq]
    exact init_provider_disabled p (keys p) (lims p)
  have hnone : ∀ st, get_available_providers
      (ensure_discovery (init_state keys lims) (.error e)) st = [] := fun st =>
    available_all_disabled _ st hdisabled
  have hallow : (check_user_limit
      (ensure_discovery (init_state keys lims) (.error e)).quota u today "ai_chat"
      false limits 1000).1.1 = true := by
    rw [hquotaEq]
    exact check_fresh_allowed u today "ai_chat" limits 1000 hlim
  have hempty : (get_available_providers
      (ensure_discovery (init_state keys lims) (.error e)) .chat).isEmpty = true := by
    rw [hnone .chat]
    rfl
  have hred := chat_with_ai_no_providers (init_state keys lims) (.error e) execp today
    limits false u message hu hm1 hm2 hallow hempty
  refine ⟨ensure_discovery_flag _ _, hnone, ?_, ?_, ?_⟩
  · rw [hred]
  · rw [hred]
    exact ensure_discovery_flag _ _
  · rw [hred]

theorem c3_witness :
    (0 : Int) < 1 ∧ (("hello" == "") = false) ∧ ((pyStrip "hello" == "") = false) ∧
    0 < (fun _ : String => 20) "ai_chat" ∧
    (chat_with_ai (init_state (fun _ => none) (fun _ => 100))
        (Except.error "discovery blew up") (fun _ _ _ => Outcome.err "unused")
        "2026-01-01" (fun _ => 20) false 1 "hello").result = .noProvidersAvailable :=
  ⟨by decide, by decide, by decide, by decide,
    (c3_discovery_failure_contained (fun _ => none) (fun _ => 100)
      "discovery blew up" (fun _ _ _ => Outcome.err "unused") "2026-01-01"
      (fun _ => 20) 1 "hello" (by decide) (by decide) (by decide) (by decide)).2.2.1⟩


/-- C4 counterexample: a Google credential "XXXXXXXXXXXX" (12 characters,
passing the length check but failing the expected "AI" prefix) is NOT
disabled: provider setup enables the backend (the prefix test only logs a
warning) and it is selected by `get_available_providers`. -/
theorem c4_counterexample :
    ((run_discovery (init_state
          (fun p => if p = Provider.google then some "XXXXXXXXXXXX" else none)
          (fun _ => 50)) none true true).providers Provider.google).enabled = true ∧
    (run_discovery (init_state
          (fun p => if p = Provider.google then some "XXXXXXXXXXXX" else none)
          (fun _ => 50)) none true true).providers Provider.google ∈
      get_available_providers (run_discovery (init_state
          (fun p => if p = Provider.google then some "XXXXXXXXXXXX" else none)
          (fun _ => 50)) none true true) .chat := by
  constructor
  · decide
  · decide

/-- C4 amended: at construction every backend starts disabled — in particular
one whose credential is missing, empty after stripping, or shorter than 10
characters; a backend with a missing credential also stays untouched by
provider setup.  The expected-prefix pattern (Google "AI", OpenAI "sk-") is
only warned about and never disables a backend (see the counterexample).
A backend that is disabled is excluded from every provider selection. -/
theorem c4_credential_validation :
    (∀ (p : Provider) (key : Option String) (lim : Nat),
      (key = none ∨ (pyStrip (key.getD "") == "") = true ∨ (key.getD "").length < 10) →
      (init_provider p key lim).enabled = false) ∧
    (∀ (cfg : ProviderConfig) (live : Option (List String)) (ok : Bool),
      cfg.api_key = none → setup_and_discover_google cfg live ok = cfg) ∧
    (∀ (cfg : ProviderConfig) (ok : Bool),
      cfg.api_key = none → setup_and_discover_openai cfg ok = cfg) ∧
    (∀ cfg : ProviderConfig, cfg.api_key = none → setup_other cfg = cfg) ∧
    (∀ (s : SysState) (st : ServiceType) (c : ProviderConfig),
      c ∈ get_available_providers s st → c.enabled = true) := by
  refine ⟨?_, ?_, ?_, ?_, ?_⟩
  · intro p key lim _
    exact init_provider_disabled p key lim
  · intro cfg live ok h
    unfold setup_and_discover_google
    rw [h]
  · intro cfg ok h
    unfold setup_and_discover_openai
    rw [h]
  · intro cfg h
    unfold setup_other
    rw [h]
  · intro s st c h
    exact (mem_available_props s st c h).1

theorem c4_witness :
    (init_provider Provider.openai (some "short") 30).enabled = false ∧
    (init_provider Provider.google none 50).enabled = false ∧
    ({ name := Provider.luma, api_key := none } : ProviderConfig) =
      setup_other { name := Provider.luma, api_key := none } :=
  ⟨(c4_credential_validation.1 Provider.openai (some "short") 30
      (Or.inr (Or.inr (by decide)))),
   (c4_credential_validation.1 Provider.google none 50 (Or.inl rfl)),
   (c4_credential_validation.2.2.2.1 { name := Provider.luma, api_key := none }
      rfl).symm⟩


theorem wrap_chat_contacted (out : RequestOutcome) :
    (wrap_chat out).contacted = out.contacted := by
  unfold wrap_chat
  rcases out.success with _ | r
  · by_cases h : out.errors.isEmpty <;> simp [h]
  · rfl

theorem wrap_chat_attempts (out : RequestOutcome) :
    (wrap_chat out).attempts = out.attempts := by
  unfold wrap_chat
  rcases out.success with _ | r
  · by_cases h : out.errors.isEmpty <;> simp [h]
  · rfl

theorem wrap_chat_state (out : RequestOutcome) :
    (wrap_chat out).state = out.state := by
  unfold wrap_chat
  rcases out.success with _ | r
  · by_cases h : out.errors.isEmpty <;> simp [h]
  · rfl

theorem wrap_chat_errors (out : RequestOutcome) :
    (wrap_chat out).errors = out.errors := by
  unfold wrap_chat
  rcases out.success with _ | r
  · by_cases h : out.errors.isEmpty <;> simp [h]
  · rfl

theorem wrap_media_contacted (out : RequestOutcome) :
    (wrap_media out).contacted = out.contacted := by
  unfold wrap_media
  rcases out.success with _ | r
  · by_cases h : out.errors.isEmpty <;> simp [h]
  · rfl

theorem wrap_media_attempts (out : RequestOutcome) :
    (wrap_media out).attempts = out.attempts := by
  unfold wrap_media
  rcases out.success with _ | r
  · by_cases h : out.errors.isEmpty <;> simp [h]
  · rfl

theorem wrap_media_errors (out : RequestOutcome) :
    (wrap_media out).errors = out.errors := by
  unfold wrap_media
  rcases out.success with _ | r
  · by_cases h : out.errors.isEmpty <;> simp [h]
  · rfl

theorem request_loop_contacted_sub (stT : ServiceType) (ukey : String) (maxR : Nat)
    (execp : Provider → Nat → String → Outcome) (today : String) (dbF : Bool)
    (userId : Int) (l : List ProviderConfig) (s : SysState) (c : List ProviderConfig)
    (a : List (Provider × Nat)) (e : List String) :
    ∀ x ∈ (request_loop stT ukey maxR execp today dbF userId l s c a e).contacted,
      x ∈ c ∨ x ∈ l := by
  obtain ⟨k, hk1, _, _⟩ := request_loop_trace stT ukey maxR execp today dbF userId l s c a e
  intro x hx
  rw [hk1] at hx
  rcases List.mem_append.mp hx with h | h
  · exact Or.inl h
  · exact Or.inr (List.mem_of_mem_take h)

/-- C5: `get_available_providers` returns exactly the enabled, under-limit,
capability-supporting backends (as a permutation of the filter, i.e. the same
membership), sorted ascending by `(errors_today, usage_today)`; and no request
loop (chat, image or video) ever contacts a backend outside this list — in
particular never a disabled or over-quota backend. -/
theorem c5_available_providers (s : SysState) (st : ServiceType) :
    (get_available_providers s st).Perm
        ((provider_order.map s.providers).filter (availFilter st)) ∧
    List.Sorted provLe (get_available_providers s st) ∧
    (∀ c ∈ get_available_providers s st,
      c.enabled = true ∧ c.usage_today < c.daily_limit ∧ supports c.name st = true) ∧
    (∀ (steps : Except String SysState) (execp : Provider → Nat → String → Outcome)
       (today : String) (limits : String → Nat) (dbF : Bool) (u : Int) (msg : String),
      (∀ c ∈ (chat_with_ai s steps execp today limits dbF u msg).contacted,
        c ∈ get_available_providers (ensure_discovery s steps) .chat ∧
          c.enabled = true ∧ c.usage_today < c.daily_limit) ∧
      (∀ c ∈ (generate_image s steps execp today limits dbF u msg).contacted,
        c ∈ get_available_providers (ensure_discovery s steps) .image ∧
          c.enabled = true ∧ c.usage_today < c.daily_limit) ∧
      (∀ c ∈ (generate_video s steps execp today limits dbF u msg).contacted,
        c ∈ get_available_providers (ensure_discovery s steps) .video ∧
          c.enabled = true ∧ c.usage_today < c.daily_limit)) := by
  refine ⟨List.perm_insertionSort provLe _, available_sorted s st, mem_available_props s st,
    ?_⟩
  intro steps execp today limits dbF u msg
  refine ⟨?_, ?_, ?_⟩
  · intro c hc
    simp only [chat_with_ai] at hc
    split at hc
    · simp at hc
    · split at hc
      · simp at hc
      · split at hc
        · simp at hc
        · split at hc
          · simp at hc
          · have hmem : c ∈ get_available_providers (ensure_discovery s steps) .chat := by
              rw [← available_quota_irrel (ensure_discovery s steps) _ .chat]
              rw [wrap_chat_contacted] at hc
              rcases request_loop_contacted_sub _ _ _ _ _ _ _ _ _ _ _ _ c hc with h | h
              · simp at h
              · exact h
            exact ⟨hmem, (mem_available_props _ _ c hmem).1,
              (mem_available_props _ _ c hmem).2.1⟩
  · intro c hc
    simp only [generate_image] at hc
    split at hc
    · simp at hc
    · split at hc
      · simp at hc
      · split at hc
        · simp at hc
        · split at hc
          · simp at hc
          · have hmem : c ∈ get_available_providers (ensure_discovery s steps) .image := by
              rw [← available_quota_irrel (ensure_discovery s steps) _ .image]
              rw [wrap_media_contacted] at hc
              rcases request_loop_contacted_sub _ _ _ _ _ _ _ _ _ _ _ _ c hc with h | h
              · simp at h
              · exact h
            exact ⟨hmem, (mem_available_props _ _ c hmem).1,
              (mem_available_props _ _ c hmem).2.1⟩
  · intro c hc
    simp only [generate_video] at hc
    split at hc
    · simp at hc
    · split at hc
      · simp at hc
      · split at hc
        · simp at hc
        · split at hc
          · simp at hc
          · have hmem : c ∈ get_available_providers (ensure_discovery s steps) .video := by
              rw [← available_quota_irrel (ensure_discovery s steps) _ .video]
              rw [wrap_media_contacted] at hc
              rcases request_loop_contacted_sub _ _ _ _ _ _ _ _ _ _ _ _ c hc with h | h
              · simp at h
              · exact h
            exact ⟨hmem, (mem_available_props _ _ c hmem).1,
              (mem_available_props _ _ c hmem).2.1⟩


/-- Concrete enabled Google config used to witness the C5 selection facts. -/
def c5CfgW : ProviderConfig :=
  { name := Provider.google
    api_key := some "AIzaKey12345"
    enabled := true
    daily_limit := 50 }

/-- Concrete system state used to witness the C5 selection facts. -/
def c5StateW : SysState :=
  { providers := fun p => if p = Provider.google then c5CfgW else init_provider p none 10
    quota := { cache := [], db := fun _ => 0 }
    discovery_completed := true }

theorem c5_witness :
    c5CfgW ∈ get_available_providers c5StateW .chat ∧
    (c5CfgW.enabled = true ∧ c5CfgW.usage_today < c5CfgW.daily_limit ∧
      supports c5CfgW.name .chat = true) :=
  ⟨by decide, (c5_available_providers c5StateW .chat).2.2.1 c5CfgW (by decide)⟩

/-! Support lemmas for the discovery-ranking claim. -/

theorem setActive_active_ne (c : ProviderConfig) (st : ServiceType) (v : Option String)
    (st' : ServiceType) (h : st' ≠ st) : (setActive c st v).active st' = c.active st' := by
  cases st <;> cases st' <;> first | rfl | exact absurd rfl h

theorem select_best_for_discovered (cfg : ProviderConfig) (st st' : ServiceType) :
    (select_best_for cfg st).discovered st' = cfg.discovered st' := by
  rcases hD : cfg.discovered st with _ | ⟨m, ms⟩ <;> simp only [select_best_for, hD]
  exact setActive_discovered cfg st _ st'

theorem select_best_for_active_ne (cfg : ProviderConfig) (st st' : ServiceType)
    (h : st' ≠ st) : (select_best_for cfg st).active st' = cfg.active st' := by
  rcases hD : cfg.discovered st with _ | ⟨m, ms⟩ <;> simp only [select_best_for, hD]
  exact setActive_active_ne cfg st _ st' h

theorem select_best_for_active_set (cfg : ProviderConfig) (st : ServiceType)
    (m0 : ModelInfo) (ms : List ModelInfo) (hD : cfg.discovered st = m0 :: ms)
    (hmin : ∀ m ∈ ms, m0.priority ≤ m.priority) :
    (select_best_for cfg st).active st = some m0.name := by
  simp only [select_best_for, hD]
  rw [setActive_active_same, pyMinPriority_eq_self m0 ms hmin]

theorem select_best_models_discovered (cfg : ProviderConfig) (st : ServiceType) :
    (select_best_models cfg).discovered st = cfg.discovered st := by
  unfold select_best_models
  by_cases hen : cfg.enabled = true
  · simp only [hen, Bool.not_true, Bool.false_eq_true, if_false]
    rw [select_best_for_discovered, select_best_for_discovered,
      select_best_for_discovered]
  · rw [Bool.not_eq_true] at hen
    simp [hen]

theorem select_best_models_active (cfg : ProviderConfig) (hen : cfg.enabled = true)
    (st : ServiceType) (m0 : ModelInfo) (ms : List ModelInfo)
    (hD : cfg.discovered st = m0 :: ms)
    (hmin : ∀ m ∈ ms, m0.priority ≤ m.priority) :
    (select_best_models cfg).active st = some m0.name := by
  unfold select_best_models
  simp only [hen, Bool.not_true, Bool.false_eq_true, if_false]
  cases st with
  | chat =>
    rw [select_best_for_active_ne _ _ _ (by decide),
      select_best_for_active_ne _ _ _ (by decide)]
    exact select_best_for_active_set cfg .chat m0 ms hD hmin
  | image =>
    rw [select_best_for_active_ne _ _ _ (by decide)]
    exact select_best_for_active_set _ .image m0 ms
      (by rw [select_best_for_discovered]; exact hD) hmin
  | video =>
    exact select_best_for_active_set _ .video m0 ms
      (by rw [select_best_for_discovered, select_best_for_discovered]; exact hD) hmin

/-- The model lists `_setup_and_discover_openai` classifies, in discovery
order, before sorting. -/
def openai_classified : ServiceType → List ModelInfo
  | .chat => known_openai_chat.filterMap (fun n => analyze_openai_model n .chat)
  | .image => known_openai_image.filterMap (fun n => analyze_openai_model n .image)
  | .video => []

theorem setup_google_cases (cfg : ProviderConfig) (live : Option (List String))
    (ok : Bool) :
    (∀ st, (setup_and_discover_google cfg live ok).discovered st = cfg.discovered st) ∨
    ((setup_and_discover_google cfg live ok).enabled = true ∧
      ∀ st, (setup_and_discover_google cfg live ok).discovered st =
        sortByPriority (classify_google (live.getD google_fallback_models) st)) := by
  unfold setup_and_discover_google
  rcases hk : cfg.api_key with _ | k
  · left; intro st; rfl
  · dsimp only
    by_cases hke : (k == "") = true
    · rw [if_pos hke]
      left; intro st; rfl
    · rw [if_neg hke]
      by_cases hok : (!ok) = true
      · rw [if_pos hok]
        left; intro st; cases st <;> rfl
      · rw [if_neg hok]
        right
        dsimp only
        rcases hm : sortByPriority
            (classify_google (live.getD google_fallback_models) ServiceType.chat) with
          _ | ⟨t, ts⟩ <;> dsimp only
        · refine ⟨rfl, fun st => ?_⟩
          cases st
          · exact hm.symm
          · rfl
          · rfl
        · refine ⟨rfl, fun st => ?_⟩
          cases st
          · exact hm.symm
          · rfl
          · rfl

theorem setup_openai_cases (cfg : ProviderConfig) (ok : Bool) :
    (∀ st, (setup_and_discover_openai cfg ok).discovered st = cfg.discovered st) ∨
    ((setup_and_discover_openai cfg ok).enabled = true ∧
      ∀ st, (setup_and_discover_openai cfg ok).discovered st =
        sortByPriority (openai_classified st)) := by
  unfold setup_and_discover_openai
  rcases hk : cfg.api_key with _ | k
  · left; intro st; rfl
  · dsimp only
    by_cases hke : (k == "") = true
    · rw [if_pos hke]
      left; intro st; rfl
    · rw [if_neg hke]
      by_cases hok : (!ok) = true
      · rw [if_pos hok]
        left; intro st; cases st <;> rfl
      · rw [if_neg hok]
        right
        exact ⟨rfl, fun st => by cases st <;> rfl⟩

theorem setup_other_fields (cfg : ProviderConfig) :
    (∀ st, (setup_other cfg).discovered st = cfg.discovered st) ∧
    (∀ st, (setup_other cfg).active st = cfg.active st) := by
  unfold setup_other
  rcases hk : cfg.api_key with _ | k
  · exact ⟨fun st => rfl, fun st => rfl⟩
  · dsimp only
    by_cases h1 : (k == "") = true
    · rw [if_pos h1]
      exact ⟨fun st => rfl, fun st => rfl⟩
    · rw [if_neg h1]
      by_cases h2 : k.length > 20
      · rw [if_pos h2]
        exact ⟨fun st => by cases st <;> rfl, fun st => by cases st <;> rfl⟩
      · rw [if_neg h2]
        exact ⟨fun st => rfl, fun st => rfl⟩

theorem run_discovery_google (s : SysState) (live : Option (List String))
    (gok ook : Bool) :
    (run_discovery s live gok ook).providers .google =
      select_best_models (setup_and_discover_google (s.providers .google) live gok) := by
  simp [run_discovery, updProviders]

theorem run_discovery_openai (s : SysState) (live : Option (List String))
    (gok ook : Bool) :
    (run_discovery s live gok ook).providers .openai =
      select_best_models (setup_and_discover_openai
        (updProviders s.providers .google
          (setup_and_discover_google (s.providers .google) live gok) .openai) ook) := by
  simp [run_discovery, updProviders]

theorem run_discovery_other (s : SysState) (live : Option (List String))
    (gok ook : Bool) (p : Provider)
    (hp : p = Provider.stability ∨ p = Provider.luma ∨ p = Provider.kling) :
    (run_discovery s live gok ook).providers p =
      select_best_models (setup_other (s.providers p)) := by
  rcases hp with rfl | rfl | rfl <;> simp [run_discovery, updProviders]


theorem post_select_empty (cfg : ProviderConfig) (hD : ∀ st, cfg.discovered st = []) :
    ∀ st, (select_best_models cfg).discovered st = [] := fun st => by
  rw [select_best_models_discovered, hD]

theorem post_select_spec (cfg : ProviderConfig) (src : ServiceType → List ModelInfo)
    (hen : cfg.enabled = true)
    (hD : ∀ st, cfg.discovered st = sortByPriority (src st)) :
    (∀ st, List.Sorted prioLe ((select_best_models cfg).discovered st)) ∧
    (∀ st, (select_best_models cfg).discovered st ≠ [] →
      ∃ m0 ms, (select_best_models cfg).discovered st = m0 :: ms ∧
        (select_best_models cfg).active st = some m0.name ∧
        ∀ m ∈ (select_best_models cfg).discovered st, m0.priority ≤ m.priority) ∧
    (∀ st k, ((select_best_models cfg).discovered st).filter (fun m => m.priority == k) =
      (src st).filter (fun m => m.priority == k)) := by
  have hD2 : ∀ st, (select_best_models cfg).discovered st = sortByPriority (src st) :=
    fun st => by rw [select_best_models_discovered, hD]
  refine ⟨?_, ?_, ?_⟩
  · intro st
    rw [hD2]
    exact sorted_sortByPriority _
  · intro st hne
    rcases hm : sortByPriority (src st) with _ | ⟨m0, ms⟩
    · rw [hD2, hm] at hne
      exact absurd rfl hne
    · have hsorted := sorted_sortByPriority (src st)
      rw [hm] at hsorted
      have hmin : ∀ m ∈ ms, m0.priority ≤ m.priority := fun m hm2 =>
        List.rel_of_sorted_cons hsorted m hm2
      refine ⟨m0, ms, by rw [hD2, hm], ?_, ?_⟩
      · exact select_best_models_active cfg hen st m0 ms (by rw [hD, hm]) hmin
      · intro m hmem
        rw [hD2, hm] at hmem
        rcases List.mem_cons.mp hmem with h0 | h2
        · rw [h0]
        · exact hmin m h2
  · intro st k
    rw [hD2]
    exact filter_sortByPriority _ k

/-- C7: after discovery completes (from a fresh manager), every backend's
`discovered_models[capability]` is sorted ascending by priority, the sort is
stable (filtering by any priority value yields the classification order), and
whenever the list is non-empty `active_models[capability]` is its head — a
minimum-priority entry. -/
theorem c7_discovery_ranking (keys : Provider → Option String) (lims : Provider → Nat)
    (live : Option (List String)) (gok ook : Bool) :
    (∀ (p : Provider) (st : ServiceType),
      List.Sorted prioLe
        (((run_discovery (init_state keys lims) live gok ook).providers p).discovered
          st)) ∧
    (∀ (p : Provider) (st : ServiceType),
      ((run_discovery (init_state keys lims) live gok ook).providers p).discovered st ≠
          [] →
      ∃ m0 ms,
        ((run_discovery (init_state keys lims) live gok ook).providers p).discovered
            st = m0 :: ms ∧
        ((run_discovery (init_state keys lims) live gok ook).providers p).active st =
          some m0.name ∧
        ∀ m ∈ ((run_discovery (init_state keys lims) live gok ook).providers
            p).discovered st, m0.priority ≤ m.priority) ∧
    (∀ (st : ServiceType) (k : Nat),
      ((run_discovery (init_state keys lims) live gok ook).providers
          Provider.google).discovered st ≠ [] →
      (((run_discovery (init_state keys lims) live gok ook).providers
          Provider.google).discovered st).filter (fun m => m.priority == k) =
        (classify_google (live.getD google_fallback_models) st).filter
          (fun m => m.priority == k)) ∧
    (∀ (st : ServiceType) (k : Nat),
      ((run_discovery (init_state keys lims) live gok ook).providers
          Provider.openai).discovered st ≠ [] →
      (((run_discovery (init_state keys lims) live gok ook).providers
          Provider.openai).discovered st).filter (fun m => m.priority == k) =
        (openai_classified st).filter (fun m => m.priority == k)) := by
  have hGproj := run_discovery_google (init_state keys lims) live gok ook
  have hOproj := run_discovery_openai (init_state keys lims) live gok ook
  have hOin : updProviders (init_state keys lims).providers .google
      (setup_and_discover_google ((init_state keys lims).providers .google) live gok)
      .openai = (init_state keys lims).providers .openai :=
    updProviders_ne _ _ _ _ (by decide)
  rw [hOin] at hOproj
  have hInitD : ∀ (p : Provider) (st : ServiceType),
      ((init_state keys lims).providers p).discovered st = [] := fun p st =>
    init_provider_discovered p (keys p) (lims p) st
  -- google dichotomy
  have hgoogle :
      (∀ st, ((run_discovery (init_state keys lims) live gok ook).providers
          Provider.google).discovered st = []) ∨
      ((∀ st, List.Sorted prioLe (((run_discovery (init_state keys lims) live gok
            ook).providers Provider.google).discovered st)) ∧
        (∀ st, ((run_discovery (init_state keys lims) live gok ook).providers
            Provider.google).discovered st ≠ [] →
          ∃ m0 ms, ((run_discovery (init_state keys lims) live gok ook).providers
              Provider.google).discovered st = m0 :: ms ∧
            ((run_discovery (init_state keys lims) live gok ook).providers
              Provider.google).active st = some m0.name ∧
            ∀ m ∈ ((run_discovery (init_state keys lims) live gok ook).providers
              Provider.google).discovered st, m0.priority ≤ m.priority) ∧
        (∀ st k, (((run_discovery (init_state keys lims) live gok ook).providers
              Provider.google).discovered st).filter (fun m => m.priority == k) =
          (classify_google (live.getD google_fallback_models) st).filter
            (fun m => m.priority == k))) := by
    rcases setup_google_cases ((init_state keys lims).providers .google) live gok with
      hA | ⟨hen, hB⟩
    · left
      intro st
      rw [hGproj]
      exact post_select_empty _ (fun st' => by rw [hA st', hInitD]) st
    · right
      have hspec := post_select_spec _ (classify_google (live.getD google_fallback_models))
        hen hB
      exact ⟨fun st => hGproj ▸ hspec.1 st, fun st => hGproj ▸ hspec.2.1 st,
        fun st k => hGproj ▸ hspec.2.2 st k⟩
  -- openai dichotomy
  have hopenai :
      (∀ st, ((run_discovery (init_state keys lims) live gok ook).providers
          Provider.openai).discovered st = []) ∨
      ((∀ st, List.Sorted prioLe (((run_discovery (init_state keys lims) live gok
            ook).providers Provider.openai).discovered st)) ∧
        (∀ st, ((run_discovery (init_state keys lims) live gok ook).providers
            Provider.openai).discovered st ≠ [] →
          ∃ m0 ms, ((run_discovery (init_state keys lims) live gok ook).providers
              Provider.openai).discovered st = m0 :: ms ∧
            ((run_discovery (init_state keys lims) live gok ook).providers
              Provider.openai).active st = some m0.name ∧
            ∀ m ∈ ((run_discovery (init_state keys lims) live gok ook).providers
              Provider.openai).discovered st, m0.priority ≤ m.priority) ∧
        (∀ st k, (((run_discovery (init_state keys lims) live gok ook).providers
              Provider.openai).discovered st).filter (fun m => m.priority == k) =
          (openai_classified st).filter (fun m => m.priority == k))) := by
    rcases setup_openai_cases ((init_state keys lims).providers .openai) ook with
      hA | ⟨hen, hB⟩
    · left
      intro st
      rw [hOproj]
      exact post_select_empty _ (fun st' => by rw [hA st', hInitD]) st
    · right
      have hspec := post_select_spec _ openai_classified hen hB
      exact ⟨fun st => hOproj ▸ hspec.1 st, fun st => hOproj ▸ hspec.2.1 st,
        fun st k => hOproj ▸ hspec.2.2 st k⟩
  have hother : ∀ (p : Provider),
      p = Provider.stability ∨ p = Provider.luma ∨ p = Provider.kling →
      ∀ st, ((run_discovery (init_state keys lims) live gok ook).providers p).discovered
        st = [] := by
    intro p hp st
    rw [run_discovery_other _ _ _ _ p hp]
    exact post_select_empty _
      (fun st' => by rw [(setup_other_fields _).1 st', hInitD]) st
  refine ⟨?_, ?_, ?_, ?_⟩
  · intro p st
    cases p
    case google =>
      rcases hgoogle with h | h
      · rw [h st]; exact List.sorted_nil
      · exact h.1 st
    case openai =>
      rcases hopenai with h | h
      · rw [h st]; exact List.sorted_nil
      · exact h.1 st
    all_goals first
      | (rw [hother _ (by decide) st]; exact List.sorted_nil)
  · intro p st hne
    cases p
    case google =>
      rcases hgoogle with h | h
      · exact absurd (h st) hne
      · exact h.2.1 st hne
    case openai =>
      rcases hopenai with h | h
      · exact absurd (h st) hne
      · exact h.2.1 st hne
    all_goals exact absurd (hother _ (by decide) st) hne
  · intro st k hne
    rcases hgoogle with h | h
    · exact absurd (h st) hne
    · exact h.2.2 st k
  · intro st k hne
    rcases hopenai with h | h
    · exact absurd (h st) hne
    · exact h.2.2 st k


/-- Concrete credential map used to witness the C7 ranking facts. -/
def c7KeysW : Provider → Option String := fun p =>
  if p = Provider.google then some "AIzaSyTestKey1" else none

theorem c7_witness :
    ((run_discovery (init_state c7KeysW (fun _ => 50)) none true true).providers
        Provider.google).discovered .chat ≠ [] ∧
    (∃ m0 ms,
      ((run_discovery (init_state c7KeysW (fun _ => 50)) none true true).providers
        Provider.google).discovered .chat = m0 :: ms ∧
      ((run_discovery (init_state c7KeysW (fun _ => 50)) none true true).providers
        Provider.google).active .chat = some m0.name ∧
      ∀ m ∈ ((run_discovery (init_state c7KeysW (fun _ => 50)) none true
          true).providers Provider.google).discovered .chat,
        m0.priority ≤ m.priority) :=
  ⟨by decide,
    (c7_discovery_ranking c7KeysW (fun _ => 50) none true true).2.1 Provider.google
      .chat (by decide)⟩


theorem request_loop_attempts_mono (stT : ServiceType) (ukey : String) (maxR : Nat)
    (execp : Provider → Nat → String → Outcome) (today : String) (dbF : Bool)
    (userId : Int) :
    ∀ (l : List ProviderConfig) (s : SysState) (c : List ProviderConfig)
      (a : List (Provider × Nat)) (e : List String),
      ∃ t, (request_loop stT ukey maxR execp today dbF userId l s c a e).attempts =
        a ++ t := by
  intro l
  induction l with
  | nil => intro s c a e; exact ⟨[], by simp [request_loop]⟩
  | cons pc rest ih =>
    intro s c a e
    rcases her : (execute_with_fallback (s.providers pc.name) stT pc.name
        (execp pc.name) maxR).result with msg | v
    · obtain ⟨t, ht⟩ := ih _ (c ++ [pc]) (a ++ [(pc.name,
        (execute_with_fallback (s.providers pc.name) stT pc.name (execp pc.name)
          maxR).calls)]) _
      refine ⟨[(pc.name, (execute_with_fallback (s.providers pc.name) stT pc.name
        (execp pc.name) maxR).calls)] ++ t, ?_⟩
      simp only [request_loop, her]
      rw [ht]
      simp
    · by_cases hv : (v != "") = true
      · exact ⟨[(pc.name, (execute_with_fallback (s.providers pc.name) stT pc.name
          (execp pc.name) maxR).calls)], by simp [request_loop, her, hv]⟩
      · have hv2 : (v != "") = false := by simpa using hv
        obtain ⟨t, ht⟩ := ih _ (c ++ [pc]) (a ++ [(pc.name,
          (execute_with_fallback (s.providers pc.name) stT pc.name (execp pc.name)
            maxR).calls)]) _
        refine ⟨[(pc.name, (execute_with_fallback (s.providers pc.name) stT pc.name
          (execp pc.name) maxR).calls)] ++ t, ?_⟩
        simp only [request_loop, her, hv2, Bool.false_eq_true, if_false]
        rw [ht]
        simp

theorem request_loop_attempts_nodup (stT : ServiceType) (ukey : String) (maxR : Nat)
    (execp : Provider → Nat → String → Outcome) (today : String) (dbF : Bool)
    (userId : Int) (l : List ProviderConfig) (s : SysState)
    (hnodup : (l.map ProviderConfig.name).Nodup) :
    ((request_loop stT ukey maxR execp today dbF userId l s [] [] []).attempts.map
      Prod.fst).Nodup := by
  obtain ⟨k, _, h2, _⟩ := request_loop_trace stT ukey maxR execp today dbF userId l s
    [] [] []
  rw [h2]
  simp only [List.map_nil, List.nil_append]
  exact List.Nodup.sublist ((List.take_sublist k _).map _) hnodup

/-- One loop step over a backend whose `_execute_with_fallback` raised:
the head of the attempt trace, the error summary, the counter mutations, and
the advance to the next backend. -/
theorem request_loop_first_err (stT : ServiceType) (ukey : String) (maxR : Nat)
    (execp : Provider → Nat → String → Outcome) (today : String) (dbF : Bool)
    (userId : Int) (pc : ProviderConfig) (rest : List ProviderConfig) (s : SysState)
    (msg : String)
    (her : (execute_with_fallback (s.providers pc.name) stT pc.name (execp pc.name)
      maxR).result = Except.error msg) :
    (request_loop stT ukey maxR execp today dbF userId (pc :: rest) s
        [] [] []).attempts.head? =
      some (pc.name, (execute_with_fallback (s.providers pc.name) stT pc.name
        (execp pc.name) maxR).calls) ∧
    (∀ pc2 rest2, rest = pc2 :: rest2 →
      (request_loop stT ukey maxR execp today dbF userId (pc :: rest) s
        [] [] []).contacted.take 2 = [pc, pc2]) ∧
    (request_loop stT ukey maxR execp today dbF userId (pc :: rest) s
        [] [] []).errors.head? =
      some (pc.name.value ++ ": " ++ String.take msg 100) ∧
    ((∀ pc2 ∈ rest, pc2.name ≠ pc.name) →
      (request_loop stT ukey maxR execp today dbF userId (pc :: rest) s
          [] [] []).state.providers pc.name =
        { (execute_with_fallback (s.providers pc.name) stT pc.name (execp pc.name)
            maxR).cfg with
          errors_today := (execute_with_fallback (s.providers pc.name) stT pc.name
            (execp pc.name) maxR).cfg.errors_today + 1
          last_error := some msg }) := by
  have heq : request_loop stT ukey maxR execp today dbF userId (pc :: rest) s
      [] [] [] =
    request_loop stT ukey maxR execp today dbF userId rest
      { providers := updProviders (updProviders s.providers pc.name
          (execute_with_fallback (s.providers pc.name) stT pc.name (execp pc.name)
            maxR).cfg) pc.name
          { (execute_with_fallback (s.providers pc.name) stT pc.name (execp pc.name)
              maxR).cfg with
            errors_today := (execute_with_fallback (s.providers pc.name) stT pc.name
              (execp pc.name) maxR).cfg.errors_today + 1
            last_error := some msg }
        quota := s.quota
        discovery_completed := s.discovery_completed }
      [pc]
      [(pc.name, (execute_with_fallback (s.providers pc.name) stT pc.name
        (execp pc.name) maxR).calls)]
      [pc.name.value ++ ": " ++ String.take msg 100] := by
    simp only [request_loop, her, List.nil_append]
  refine ⟨?_, ?_, ?_, ?_⟩
  · rw [heq]
    obtain ⟨t, ht⟩ := request_loop_attempts_mono stT ukey maxR execp today dbF userId
      rest _ _ _ _
    rw [ht]
    rfl
  · intro pc2 rest2 hrest
    subst hrest
    rw [heq]
    obtain ⟨k, hk, _, hk1⟩ := request_loop_trace stT ukey maxR execp today dbF userId
      (pc2 :: rest2) _ _ _ _
    rw [hk]
    obtain ⟨k2, rfl⟩ : ∃ k2, k = k2 + 1 :=
      ⟨k - 1, by have := hk1 (List.cons_ne_nil _ _); omega⟩
    simp [List.take]
  · rw [heq]
    obtain ⟨t, ht⟩ := request_loop_errors_mono stT ukey maxR execp today dbF userId
      rest _ _ _ _
    rw [ht]
    rfl
  · intro hrest
    rw [heq]
    rw [request_loop_state_untouched stT ukey maxR execp today dbF userId rest _ _ _ _
      pc.name hrest]
    exact updProviders_same _ _ _

theorem wrap_chat_result_failed (out : RequestOutcome) (h1 : out.success = none)
    (h2 : out.errors ≠ []) :
    (wrap_chat out).result = .allFailed (out.errors.take 3) := by
  unfold wrap_chat
  rw [h1]
  have h3 : out.errors.isEmpty = false := by
    rcases h : out.errors with _ | ⟨x, xs⟩
    · exact absurd h h2
    · rfl
  rw [h3]
  rfl

theorem wrap_media_result_failed (out : RequestOutcome) (h1 : out.success = none)
    (h2 : out.errors ≠ []) :
    (wrap_media out).result = .allFailed (out.errors.take 3) := by
  unfold wrap_media
  rw [h1]
  have h3 : out.errors.isEmpty = false := by
    rcases h : out.errors with _ | ⟨x, xs⟩
    · exact absurd h h2
    · rfl
  rw [h3]
  rfl


/-- Single-model Google chat config for the C1 counterexample. -/
def c1Model : ModelInfo :=
  { name := "gemini-2.5-flash"
    provider := Provider.google
    service_type := ServiceType.chat
    priority := 15 }

/-- Backend with exactly one ranked chat model (C1 counterexample). -/
def c1Cfg : ProviderConfig :=
  { name := Provider.google
    api_key := some "AIzaSyTestKey1"
    enabled := true
    discovered_chat := [c1Model]
    active_chat := some "gemini-2.5-flash" }

/-- C1 counterexample: with a single ranked model and every call failing with
a quota-style error, the chat-budget loop (16 attempts) makes exactly ONE
call — rotation returns the same model, `next_model != current_model` fails,
and the loop breaks instead of retrying until the budget is exhausted. -/
theorem c1_counterexample :
    (execute_with_fallback c1Cfg .chat Provider.google
        (fun _ _ => Outcome.err "429 quota exceeded") 16).calls = 1 ∧
    ¬((execute_with_fallback c1Cfg .chat Provider.google
        (fun _ _ => Outcome.err "429 quota exceeded") 16).calls = 16) := by
  constructor
  · decide
  · decide

/-- C1 amended: if a backend's ranked model list for a capability has exactly
one model and every call fails with a quota-style (or model-unavailable)
error, rotation is a no-op returning the same model, and the retry loop
therefore ends immediately: the backend is abandoned after exactly one call
(raising the aggregate failure), not after the full attempt budget. -/
theorem c1_single_model_one_attempt (cfg : ProviderConfig) (stT : ServiceType)
    (p : Provider) (execf : Nat → String → Outcome) (maxR : Nat) (m : ModelInfo)
    (hen : cfg.enabled = true) (hD : cfg.discovered stT = [m]) (hmn : m.name ≠ "")
    (hact : cfg.active stT = none ∨ cfg.active stT = some m.name)
    (hmaxR : 1 ≤ maxR)
    (hexec : ∀ i mn, ∃ msg, execf i mn = .err msg ∧
      (is_quota_error msg || is_model_error msg) = true) :
    (execute_with_fallback cfg stT p execf maxR).calls = 1 ∧
    (execute_with_fallback cfg stT p execf maxR).result =
      .error (all_failed_msg p maxR) :=
  execute_with_fallback_singleton cfg stT p execf maxR m hen hD hmn hact hmaxR hexec

/-- Single-model OpenAI image config for the C1 witness. -/
def c1WModel : ModelInfo :=
  { name := "dall-e-3"
    provider := Provider.openai
    service_type := ServiceType.image
    priority := 5 }

/-- Backend with exactly one ranked image model (C1 witness). -/
def c1WCfg : ProviderConfig :=
  { name := Provider.openai
    api_key := some "sk-testkey-123"
    enabled := true
    discovered_image := [c1WModel] }

theorem c1_witness :
    c1WCfg.enabled = true ∧ c1WCfg.discovered .image = [c1WModel] ∧
    (execute_with_fallback c1WCfg .image Provider.openai
      (fun _ _ => Outcome.err "404 model not found") 6).calls = 1 :=
  ⟨rfl, rfl,
    (c1_single_model_one_attempt c1WCfg .image Provider.openai
      (fun _ _ => Outcome.err "404 model not found") 6 c1WModel rfl rfl (by decide)
      (Or.inl rfl) (by decide)
      (fun _ _ => ⟨"404 model not found", rfl, by decide⟩)).1⟩

/-- C9: a backend whose first attempted call fails with a non-model error is
abandoned after exactly one call with no model rotation; the abandonment
increments its `errors_today` by one, records the propagated failure as
`last_error`, appends one summary to the accumulated error list, and the
request loop proceeds to the next backend. -/
theorem c9_nonmodel_abandon :
    (∀ (cfg : ProviderConfig) (stT : ServiceType) (p : Provider)
       (execf : Nat → String → Outcome) (maxR : Nat),
      cfg.enabled = true → 1 ≤ maxR →
      (cfg.discovered stT ≠ [] ∨ optFalsy (cfg.active stT) = false) →
      (∀ mn, ∃ e, execf 0 mn = .err e ∧ is_quota_error e = false ∧
        is_model_error e = false) →
      (execute_with_fallback cfg stT p execf maxR).calls = 1 ∧
      (execute_with_fallback cfg stT p execf maxR).rotCalls = 0 ∧
      (execute_with_fallback cfg stT p execf maxR).result =
        .error (all_failed_msg p maxR)) ∧
    (∀ (stT : ServiceType) (ukey : String) (maxR : Nat)
       (execp : Provider → Nat → String → Outcome) (today : String) (dbF : Bool)
       (u : Int) (pc : ProviderConfig) (rest : List ProviderConfig) (s : SysState),
      (s.providers pc.name).enabled = true → 1 ≤ maxR →
      ((s.providers pc.name).discovered stT ≠ [] ∨
        optFalsy ((s.providers pc.name).active stT) = false) →
      (∀ mn, ∃ e, execp pc.name 0 mn = .err e ∧ is_quota_error e = false ∧
        is_model_error e = false) →
      (∀ pc2 ∈ rest, pc2.name ≠ pc.name) →
      (request_loop stT ukey maxR execp today dbF u (pc :: rest) s
          [] [] []).attempts.head? = some (pc.name, 1) ∧
      ((request_loop stT ukey maxR execp today dbF u (pc :: rest) s
          [] [] []).state.providers pc.name).errors_today =
        (s.providers pc.name).errors_today + 1 ∧
      ((request_loop stT ukey maxR execp today dbF u (pc :: rest) s
          [] [] []).state.providers pc.name).last_error =
        some (all_failed_msg pc.name maxR) ∧
      (request_loop stT ukey maxR execp today dbF u (pc :: rest) s
          [] [] []).errors.head? =
        some (pc.name.value ++ ": " ++
          String.take (all_failed_msg pc.name maxR) 100) ∧
      (∀ pc2 rest2, rest = pc2 :: rest2 →
        (request_loop stT ukey maxR execp today dbF u (pc :: rest) s
          [] [] []).contacted.take 2 = [pc, pc2])) := by
  constructor
  · intro cfg stT p execf maxR hen hmaxR hstart hfirst
    exact execute_with_fallback_nonmodel_first cfg stT p execf maxR hen hmaxR hstart
      hfirst
  · intro stT ukey maxR execp today dbF u pc rest s hen hmaxR hstart hfirst hrest
    obtain ⟨hcalls, hrots, hres⟩ := execute_with_fallback_nonmodel_first
      (s.providers pc.name) stT pc.name (execp pc.name) maxR hen hmaxR hstart hfirst
    obtain ⟨h1, h2, h3, h4⟩ := request_loop_first_err stT ukey maxR execp today dbF u
      pc rest s (all_failed_msg pc.name maxR) hres
    have hcore := execute_with_fallback_coreEq (s.providers pc.name) stT pc.name
      (execp pc.name) maxR
    refine ⟨?_, ?_, ?_, h3, h2⟩
    · rw [h1, hcalls]
    · rw [h4 hrest]
      show (execute_with_fallback (s.providers pc.name) stT pc.name (execp pc.name)
        maxR).cfg.errors_today + 1 = _
      rw [hcore.2.2.2.1]
    · rw [h4 hrest]

/-- Concrete backend for the C9 witness: one chat model, first call fails
with a plain network error. -/
def c9Cfg : ProviderConfig :=
  { name := Provider.google
    api_key := some "AIzaSyTestKey1"
    enabled := true
    discovered_chat := [c1Model]
    active_chat := some "gemini-2.5-flash" }

/-- Second backend in line for the C9 witness. -/
def c9Cfg2 : ProviderConfig :=
  { name := Provider.openai
    api_key := some "sk-testkey-123"
    enabled := true }

/-- Concrete state for the C9 witness. -/
def c9State : SysState :=
  { providers := fun p =>
      if p = Provider.google then c9Cfg
      else if p = Provider.openai then c9Cfg2
      else init_provider p none 10
    quota := { cache := [], db := fun _ => 0 }
    discovery_completed := true }

theorem c9_witness :
    (c9State.providers c9Cfg.name).enabled = true ∧
    ((request_loop .chat "ai_chat" 16 (fun _ _ _ => Outcome.err "network timeout")
        "2026-01-01" false 3 [c9Cfg, c9Cfg2] c9State [] [] []).attempts.head? =
      some (Provider.google, 1)) ∧
    ((request_loop .chat "ai_chat" 16 (fun _ _ _ => Outcome.err "network timeout")
        "2026-01-01" false 3 [c9Cfg, c9Cfg2] c9State [] [] []).state.providers
        c9Cfg.name).errors_today = (c9State.providers c9Cfg.name).errors_today + 1 ∧
    ((request_loop .chat "ai_chat" 16 (fun _ _ _ => Outcome.err "network timeout")
        "2026-01-01" false 3 [c9Cfg, c9Cfg2] c9State [] [] []).contacted.take 2 =
      [c9Cfg, c9Cfg2]) := by
  have h := c9_nonmodel_abandon.2 .chat "ai_chat" 16
    (fun _ _ _ => Outcome.err "network timeout") "2026-01-01" false 3 c9Cfg [c9Cfg2]
    c9State (by decide) (by decide) (Or.inl (by decide))
    (fun mn => ⟨"network timeout", rfl, by decide, by decide⟩) (by decide)
  exact ⟨by decide, h.1, h.2.1, h.2.2.2.2 c9Cfg2 [] rfl⟩


/-- C8: when every backend call fails (so all available backends are
exhausted without success), `chat_with_ai`, `generate_image` and
`generate_video` return the structured aggregated-failure value whose summary
list is the first (at most three) backend error summaries; one summary per
available backend is accumulated.  (No exception can escape these entry
points: every path of the model is one of the structured result constructors,
mirroring the source's catch-all `try/except` returning a string.) -/
theorem c8_aggregated_failure :
    (∀ (s0 : SysState) (steps : Except String SysState)
       (execp : Provider → Nat → String → Outcome) (today : String)
       (limits : String → Nat) (dbF : Bool) (u : Int) (msg : String),
      s0.discovery_completed = true → 0 < u →
      ((msg == "") = false) → ((pyStrip msg == "") = false) →
      (check_user_limit s0.quota u today "ai_chat" dbF limits 1000).1.1 = true →
      (get_available_providers s0 .chat).isEmpty = false →
      (∀ p i mn, ∃ e, execp p i mn = .err e) →
      (chat_with_ai s0 steps execp today limits dbF u msg).result =
        .allFailed ((chat_with_ai s0 steps execp today limits dbF u msg).errors.take
          3) ∧
      (chat_with_ai s0 steps execp today limits dbF u msg).errors.length =
        (get_available_providers s0 .chat).length ∧
      ((chat_with_ai s0 steps execp today limits dbF u msg).errors.take 3).length ≤
        3) ∧
    (∀ (s0 : SysState) (steps : Except String SysState)
       (execp : Provider → Nat → String → Outcome) (today : String)
       (limits : String → Nat) (dbF : Bool) (u : Int) (prompt : String),
      s0.discovery_completed = true → 0 < u →
      message_too_short prompt 3 = false →
      (check_user_limit s0.quota u today "image_gen" dbF limits 1000).1.1 = true →
      (get_available_providers s0 .image).isEmpty = false →
      (∀ p i mn, ∃ e, execp p i mn = .err e) →
      (generate_image s0 steps execp today limits dbF u prompt).result =
        .allFailed ((generate_image s0 steps execp today limits dbF u
          prompt).errors.take 3) ∧
      (generate_image s0 steps execp today limits dbF u prompt).errors.length =
        (get_available_providers s0 .image).length ∧
      ((generate_image s0 steps execp today limits dbF u prompt).errors.take
        3).length ≤ 3) ∧
    (∀ (s0 : SysState) (steps : Except String SysState)
       (execp : Provider → Nat → String → Outcome) (today : String)
       (limits : String → Nat) (dbF : Bool) (u : Int) (prompt : String),
      s0.discovery_completed = true → 0 < u →
      message_too_short prompt 5 = false →
      (check_user_limit s0.quota u today "video_gen" dbF limits 1000).1.1 = true →
      (get_available_providers s0 .video).isEmpty = false →
      (∀ p i mn, ∃ e, execp p i mn = .err e) →
      (generate_video s0 steps execp today limits dbF u prompt).result =
        .allFailed ((generate_video s0 steps execp today limits dbF u
          prompt).errors.take 3) ∧
      (generate_video s0 steps execp today limits dbF u prompt).errors.length =
        (get_available_providers s0 .video).length ∧
      ((generate_video s0 steps execp today limits dbF u prompt).errors.take
        3).length ≤ 3) := by
  refine ⟨?_, ?_, ?_⟩
  · intro s0 steps execp today limits dbF u msg hdisc hu hm1 hm2 hallow hprovs hall
    rw [chat_with_ai_main s0 steps execp today limits dbF u msg hdisc hu hm1 hm2
      hallow hprovs]
    obtain ⟨hs, hlen⟩ := request_loop_all_err .chat "ai_chat" 16 execp today dbF u
      hall (get_available_providers s0 .chat)
      { s0 with quota := (check_user_limit s0.quota u today "ai_chat" dbF limits
          1000).2 } [] [] []
    have hlen2 : (request_loop .chat "ai_chat" 16 execp today dbF u
        (get_available_providers s0 .chat)
        { s0 with quota := (check_user_limit s0.quota u today "ai_chat" dbF limits
            1000).2 } [] [] []).errors.length =
        (get_available_providers s0 .chat).length := by
      rw [hlen]
      simp
    have hne : (request_loop .chat "ai_chat" 16 execp today dbF u
        (get_available_providers s0 .chat)
        { s0 with quota := (check_user_limit s0.quota u today "ai_chat" dbF limits
            1000).2 } [] [] []).errors ≠ [] := by
      intro h0
      rw [h0] at hlen2
      rcases h : get_available_providers s0 .chat with _ | ⟨x, xs⟩
      · rw [h] at hprovs
        exact absurd hprovs (by decide)
      · rw [h] at hlen2
        simp at hlen2
    rw [wrap_chat_errors]
    refine ⟨?_, hlen2, ?_⟩
    · rw [wrap_chat_result_failed _ hs hne]
    · rw [List.length_take]
      omega
  · intro s0 steps execp today limits dbF u prompt hdisc hu hm1 hallow hprovs hall
    rw [generate_image_main s0 steps execp today limits dbF u prompt hdisc hu hm1
      hallow hprovs]
    obtain ⟨hs, hlen⟩ := request_loop_all_err .image "image_gen" 6 execp today dbF u
      hall (get_available_providers s0 .image)
      { s0 with quota := (check_user_limit s0.quota u today "image_gen" dbF limits
          1000).2 } [] [] []
    have hlen2 : (request_loop .image "image_gen" 6 execp today dbF u
        (get_available_providers s0 .image)
        { s0 with quota := (check_user_limit s0.quota u today "image_gen" dbF limits
            1000).2 } [] [] []).errors.length =
        (get_available_providers s0 .image).length := by
      rw [hlen]
      simp
    have hne : (request_loop .image "image_gen" 6 execp today dbF u
        (get_available_providers s0 .image)
        { s0 with quota := (check_user_limit s0.quota u today "image_gen" dbF limits
            1000).2 } [] [] []).errors ≠ [] := by
      intro h0
      rw [h0] at hlen2
      rcases h : get_available_providers s0 .image with _ | ⟨x, xs⟩
      · rw [h] at hprovs
        exact absurd hprovs (by decide)
      · rw [h] at hlen2
        simp at hlen2
    rw [wrap_media_errors]
    refine ⟨?_, hlen2, ?_⟩
    · rw [wrap_media_result_failed _ hs hne]
    · rw [List.length_take]
      omega
  · intro s0 steps execp today limits dbF u prompt hdisc hu hm1 hallow hprovs hall
    rw [generate_video_main s0 steps execp today limits dbF u prompt hdisc hu hm1
      hallow hprovs]
    obtain ⟨hs, hlen⟩ := request_loop_all_err .video "video_gen" 6 execp today dbF u
      hall (get_available_providers s0 .video)
      { s0 with quota := (check_user_limit s0.quota u today "video_gen" dbF limits
          1000).2 } [] [] []
    have hlen2 : (request_loop .video "video_gen" 6 execp today dbF u
        (get_available_providers s0 .video)
        { s0 with quota := (check_user_limit s0.quota u today "video_gen" dbF limits
            1000).2 } [] [] []).errors.length =
        (get_available_providers s0 .video).length := by
      rw [hlen]
      simp
    have hne : (request_loop .video "video_gen" 6 execp today dbF u
        (get_available_providers s0 .video)
        { s0 with quota := (check_user_limit s0.quota u today "video_gen" dbF limits
            1000).2 } [] [] []).errors ≠ [] := by
      intro h0
      rw [h0] at hlen2
      rcases h : get_available_providers s0 .video with _ | ⟨x, xs⟩
      · rw [h] at hprovs
        exact absurd hprovs (by decide)
      · rw [h] at hlen2
        simp at hlen2
    rw [wrap_media_errors]
    refine ⟨?_, hlen2, ?_⟩
    · rw [wrap_media_result_failed _ hs hne]
    · rw [List.length_take]
      omega

theorem c8_witness :
    (c9State.discovery_completed = true) ∧
    ((get_available_providers c9State .chat).isEmpty = false) ∧
    ((chat_with_ai c9State (Except.error "x")
        (fun _ _ _ => Outcome.err "503 backend unavailable") "2026-01-01"
        (fun _ => 20) false 3 "hello").result =
      .allFailed ((chat_with_ai c9State (Except.error "x")
        (fun _ _ _ => Outcome.err "503 backend unavailable") "2026-01-01"
        (fun _ => 20) false 3 "hello").errors.take 3)) ∧
    ((chat_with_ai c9State (Except.error "x")
        (fun _ _ _ => Outcome.err "503 backend unavailable") "2026-01-01"
        (fun _ => 20) false 3 "hello").errors.length =
      (get_available_providers c9State .chat).length) ∧
    ((generate_video c9State (Except.error "x")
        (fun _ _ _ => Outcome.err "503 backend unavailable") "2026-01-01"
        (fun _ => 20) false 3 "a cat flying over the moon").result =
      .allFailed ((generate_video c9State (Except.error "x")
        (fun _ _ _ => Outcome.err "503 backend unavailable") "2026-01-01"
        (fun _ => 20) false 3 "a cat flying over the moon").errors.take 3)) ∧
    ((generate_video c9State (Except.error "x")
        (fun _ _ _ => Outcome.err "503 backend unavailable") "2026-01-01"
        (fun _ => 20) false 3 "a cat flying over the moon").errors.length =
      (get_available_providers c9State .video).length) := by
  have h := c8_aggregated_failure.1 c9State (Except.error "x")
    (fun _ _ _ => Outcome.err "503 backend unavailable") "2026-01-01" (fun _ => 20)
    false 3 "hello" rfl (by decide) (by decide) (by decide) (by decide) (by decide)
    (fun _ _ _ => ⟨"503 backend unavailable", rfl⟩)
  have hv := c8_aggregated_failure.2.2 c9State (Except.error "x")
    (fun _ _ _ => Outcome.err "503 backend unavailable") "2026-01-01" (fun _ => 20)
    false 3 "a cat flying over the moon" rfl (by decide) (by decide) (by decide)
    (by decide) (fun _ _ _ => ⟨"503 backend unavailable", rfl⟩)
  exact ⟨rfl, by decide, h.1, h.2.1, hv.1, hv.2.1⟩


theorem request_loop_quota_first (stT : ServiceType) (ukey : String) (maxR : Nat)
    (execp : Provider → Nat → String → Outcome) (today : String) (dbF : Bool)
    (u : Int) (pc : ProviderConfig) (rest : List ProviderConfig) (s : SysState)
    (m0 m1 : ModelInfo) (ms : List ModelInfo)
    (hen : (s.providers pc.name).enabled = true)
    (hD : (s.providers pc.name).discovered stT = m0 :: m1 :: ms)
    (hnd : ((m0 :: m1 :: ms).map ModelInfo.name).Nodup)
    (hne : ∀ m ∈ m0 :: m1 :: ms, m.name ≠ "")
    (hexec : ∀ i mn, ∃ e, execp pc.name i mn = .err e ∧
      (is_quota_error e || is_model_error e) = true) :
    (request_loop stT ukey maxR execp today dbF u (pc :: rest) s
        [] [] []).attempts.head? = some (pc.name, maxR) ∧
    (∀ pc2 rest2, rest = pc2 :: rest2 →
      (request_loop stT ukey maxR execp today dbF u (pc :: rest) s
        [] [] []).contacted.take 2 = [pc, pc2]) := by
  obtain ⟨hcalls, hres⟩ := execute_with_fallback_quota_budget (s.providers pc.name)
    stT pc.name (execp pc.name) maxR hen m0 m1 ms hD hnd hne hexec
  obtain ⟨h1, h2, _, _⟩ := request_loop_first_err stT ukey maxR execp today dbF u pc
    rest s _ hres
  exact ⟨by rw [h1, hcalls], h2⟩

/-- Single chat model used by the C2 counterexample. -/
def c2Model : ModelInfo :=
  { name := "gemini-2.0-flash"
    provider := Provider.google
    service_type := ServiceType.chat
    priority := 20 }

/-- Backend with exactly one ranked chat model (C2 counterexample). -/
def c2Cfg : ProviderConfig :=
  { name := Provider.google
    api_key := some "AIzaSyTestKey1"
    enabled := true
    daily_limit := 50
    discovered_chat := [c2Model]
    active_chat := some "gemini-2.0-flash" }

/-- State with one available chat backend holding one ranked model. -/
def c2State : SysState :=
  { providers := fun p => if p = Provider.google then c2Cfg else init_provider p none 10
    quota := { cache := [], db := fun _ => 0 }
    discovery_completed := true }

/-- C2 counterexample: a backend with (at least) one ranked model — here
exactly one — whose calls all fail with a quota-style error receives a single
call, not the 16-call chat budget: the claim's "exactly its attempt budget"
fails for singleton model lists. -/
theorem c2_counterexample :
    (chat_with_ai c2State (Except.error "x")
        (fun _ _ _ => Outcome.err "rate limit hit") "2026-01-01" (fun _ => 20) false 9
        "hi").attempts = [(Provider.google, 1)] ∧
    ¬((chat_with_ai c2State (Except.error "x")
        (fun _ _ _ => Outcome.err "rate limit hit") "2026-01-01" (fun _ => 20) false 9
        "hi").attempts = [(Provider.google, 16)]) := by
  constructor
  · decide
  · decide

/-- C2 amended: against a backend holding at least TWO ranked models with
pairwise-distinct non-empty names, all-quota-style failure makes the engine
issue exactly its per-backend attempt budget of calls (16 for chat, 6 for
image and video, as passed by the respective entry points), then move on to
the next available backend; a backend is never re-tried within one request
(the attempted-provider list has no duplicates).  With a single ranked model
the backend is abandoned after one call instead (see C1). -/
theorem c2_budget_and_advance :
    (∀ (cfg : ProviderConfig) (stT : ServiceType) (p : Provider)
       (execf : Nat → String → Outcome) (maxR : Nat) (m0 m1 : ModelInfo)
       (ms : List ModelInfo),
      cfg.enabled = true → cfg.discovered stT = m0 :: m1 :: ms →
      ((m0 :: m1 :: ms).map ModelInfo.name).Nodup →
      (∀ m ∈ m0 :: m1 :: ms, m.name ≠ "") →
      (∀ i mn, ∃ e, execf i mn = .err e ∧
        (is_quota_error e || is_model_error e) = true) →
      (execute_with_fallback cfg stT p execf maxR).calls = maxR ∧
      (execute_with_fallback cfg stT p execf maxR).result =
        .error (all_failed_msg p maxR)) ∧
    (∀ (s0 : SysState) (steps : Except String SysState)
       (execp : Provider → Nat → String → Outcome) (today : String)
       (limits : String → Nat) (dbF : Bool) (u : Int) (msg : String)
       (pc : ProviderConfig) (rest : List ProviderConfig) (m0 m1 : ModelInfo)
       (ms : List ModelInfo),
      (∀ q, (s0.providers q).name = q) →
      s0.discovery_completed = true → 0 < u →
      ((msg == "") = false) → ((pyStrip msg == "") = false) →
      (check_user_limit s0.quota u today "ai_chat" dbF limits 1000).1.1 = true →
      get_available_providers s0 .chat = pc :: rest →
      (s0.providers pc.name).enabled = true →
      (s0.providers pc.name).discovered .chat = m0 :: m1 :: ms →
      ((m0 :: m1 :: ms).map ModelInfo.name).Nodup →
      (∀ m ∈ m0 :: m1 :: ms, m.name ≠ "") →
      (∀ i mn, ∃ e, execp pc.name i mn = .err e ∧
        (is_quota_error e || is_model_error e) = true) →
      (chat_with_ai s0 steps execp today limits dbF u msg).attempts.head? =
        some (pc.name, 16) ∧
      (∀ pc2 rest2, rest = pc2 :: rest2 →
        (chat_with_ai s0 steps execp today limits dbF u msg).contacted.take 2 =
          [pc, pc2]) ∧
      ((chat_with_ai s0 steps execp today limits dbF u msg).attempts.map
        Prod.fst).Nodup) ∧
    (∀ (s0 : SysState) (steps : Except String SysState)
       (execp : Provider → Nat → String → Outcome) (today : String)
       (limits : String → Nat) (dbF : Bool) (u : Int) (prompt : String)
       (pc : ProviderConfig) (rest : List ProviderConfig) (m0 m1 : ModelInfo)
       (ms : List ModelInfo),
      (∀ q, (s0.providers q).name = q) →
      s0.discovery_completed = true → 0 < u →
      message_too_short prompt 3 = false →
      (check_user_limit s0.quota u today "image_gen" dbF limits 1000).1.1 = true →
      get_available_providers s0 .image = pc :: rest →
      (s0.providers pc.name).enabled = true →
      (s0.providers pc.name).discovered .image = m0 :: m1 :: ms →
      ((m0 :: m1 :: ms).map ModelInfo.name).Nodup →
      (∀ m ∈ m0 :: m1 :: ms, m.name ≠ "") →
      (∀ i mn, ∃ e, execp pc.name i mn = .err e ∧
        (is_quota_error e || is_model_error e) = true) →
      (generate_image s0 steps execp today limits dbF u prompt).attempts.head? =
        some (pc.name, 6) ∧
      (∀ pc2 rest2, rest = pc2 :: rest2 →
        (generate_image s0 steps execp today limits dbF u prompt).contacted.take 2 =
          [pc, pc2]) ∧
      ((generate_image s0 steps execp today limits dbF u prompt).attempts.map
        Prod.fst).Nodup) ∧
    (∀ (s0 : SysState) (steps : Except String SysState)
       (execp : Provider → Nat → String → Outcome) (today : String)
       (limits : String → Nat) (dbF : Bool) (u : Int) (prompt : String)
       (pc : ProviderConfig) (rest : List ProviderConfig) (m0 m1 : ModelInfo)
       (ms : List ModelInfo),
      (∀ q, (s0.providers q).name = q) →
      s0.discovery_completed = true → 0 < u →
      message_too_short prompt 5 = false →
      (check_user_limit s0.quota u today "video_gen" dbF limits 1000).1.1 = true →
      get_available_providers s0 .video = pc :: rest →
      (s0.providers pc.name).enabled = true →
      (s0.providers pc.name).discovered .video = m0 :: m1 :: ms →
      ((m0 :: m1 :: ms).map ModelInfo.name).Nodup →
      (∀ m ∈ m0 :: m1 :: ms, m.name ≠ "") →
      (∀ i mn, ∃ e, execp pc.name i mn = .err e ∧
        (is_quota_error e || is_model_error e) = true) →
      (generate_video s0 steps execp today limits dbF u prompt).attempts.head? =
        some (pc.name, 6) ∧
      (∀ pc2 rest2, rest = pc2 :: rest2 →
        (generate_video s0 steps execp today limits dbF u prompt).contacted.take 2 =
          [pc, pc2]) ∧
      ((generate_video s0 steps execp today limits dbF u prompt).attempts.map
        Prod.fst).Nodup) := by
  refine ⟨?_, ?_, ?_, ?_⟩
  · intro cfg stT p execf maxR m0 m1 ms hen hD hnd hne hexec
    exact execute_with_fallback_quota_budget cfg stT p execf maxR hen m0 m1 ms hD hnd
      hne hexec
  · intro s0 steps execp today limits dbF u msg pc rest m0 m1 ms hwf hdisc hu hm1 hm2
      hallow hav hen hD hnd hne hexec
    have hprovs : (get_available_providers s0 .chat).isEmpty = false := by
      rw [hav]
      rfl
    have hmain := chat_with_ai_main s0 steps execp today limits dbF u msg hdisc hu
      hm1 hm2 hallow hprovs
    have hloop := request_loop_quota_first .chat "ai_chat" 16 execp today dbF u pc
      rest
      { s0 with quota := (check_user_limit s0.quota u today "ai_chat" dbF limits
          1000).2 } m0 m1 ms hen hD hnd hne hexec
    have hnodup := available_names_nodup s0 .chat hwf
    refine ⟨?_, ?_, ?_⟩
    · rw [hmain, wrap_chat_attempts, hav]
      exact hloop.1
    · intro pc2 rest2 hrest
      rw [hmain, wrap_chat_contacted, hav]
      exact hloop.2 pc2 rest2 hrest
    · rw [hmain, wrap_chat_attempts]
      exact request_loop_attempts_nodup .chat "ai_chat" 16 execp today dbF u _ _
        hnodup
  · intro s0 steps execp today limits dbF u prompt pc rest m0 m1 ms hwf hdisc hu hm1
      hallow hav hen hD hnd hne hexec
    have hprovs : (get_available_providers s0 .image).isEmpty = false := by
      rw [hav]
      rfl
    have hmain := generate_image_main s0 steps execp today limits dbF u prompt hdisc
      hu hm1 hallow hprovs
    have hloop := request_loop_quota_first .image "image_gen" 6 execp today dbF u pc
      rest
      { s0 with quota := (check_user_limit s0.quota u today "image_gen" dbF limits
          1000).2 } m0 m1 ms hen hD hnd hne hexec
    have hnodup := available_names_nodup s0 .image hwf
    refine ⟨?_, ?_, ?_⟩
    · rw [hmain, wrap_media_attempts, hav]
      exact hloop.1
    · intro pc2 rest2 hrest
      rw [hmain, wrap_media_contacted, hav]
      exact hloop.2 pc2 rest2 hrest
    · rw [hmain, wrap_media_attempts]
      exact request_loop_attempts_nodup .image "image_gen" 6 execp today dbF u _ _
        hnodup
  · intro s0 steps execp today limits dbF u prompt pc rest m0 m1 ms hwf hdisc hu hm1
      hallow hav hen hD hnd hne hexec
    have hprovs : (get_available_providers s0 .video).isEmpty = false := by
      rw [hav]
      rfl
    have hmain := generate_video_main s0 steps execp today limits dbF u prompt hdisc
      hu hm1 hallow hprovs
    have hloop := request_loop_quota_first .video "video_gen" 6 execp today dbF u pc
      rest
      { s0 with quota := (check_user_limit s0.quota u today "video_gen" dbF limits
          1000).2 } m0 m1 ms hen hD hnd hne hexec
    have hnodup := available_names_nodup s0 .video hwf
    refine ⟨?_, ?_, ?_⟩
    · rw [hmain, wrap_media_attempts, hav]
      exact hloop.1
    · intro pc2 rest2 hrest
      rw [hmain, wrap_media_contacted, hav]
      exact hloop.2 pc2 rest2 hrest
    · rw [hmain, wrap_media_attempts]
      exact request_loop_attempts_nodup .video "video_gen" 6 execp today dbF u _ _
        hnodup


/-- First ranked chat model for the C2 witness backend. -/
def c2WM0 : ModelInfo :=
  { name := "gemini-2.0-flash"
    provider := Provider.google
    service_type := ServiceType.chat
    priority := 20 }

/-- Second ranked chat model for the C2 witness backend. -/
def c2WM1 : ModelInfo :=
  { name := "gemini-1.5-pro"
    provider := Provider.google
    service_type := ServiceType.chat
    priority := 30 }

/-- C2 witness first backend: two ranked chat models. -/
def c2WCfgG : ProviderConfig :=
  { name := Provider.google
    api_key := some "AIzaSyTestKey1"
    enabled := true
    daily_limit := 50
    discovered_chat := [c2WM0, c2WM1]
    active_chat := some "gemini-2.0-flash" }

/-- C2 witness second backend. -/
def c2WCfgO : ProviderConfig :=
  { name := Provider.openai
    api_key := some "sk-test123456"
    enabled := true
    daily_limit := 40
    discovered_chat := [{ name := "gpt-4o-mini"
                          provider := Provider.openai
                          service_type := ServiceType.chat
                          priority := 21 }]
    active_chat := some "gpt-4o-mini" }

/-- C2 witness state: google (2 chat models) and openai enabled. -/
def c2WState : SysState :=
  { providers := fun p =>
      if p = Provider.google then c2WCfgG
      else if p = Provider.openai then c2WCfgO
      else init_provider p none 10
    quota := { cache := [], db := fun _ => 0 }
    discovery_completed := true }

/-- C2 witness executor: google always rate-limited, others succeed. -/
def c2WExec : Provider → Nat → String → Outcome := fun p _ _ =>
  if p = Provider.google then Outcome.err "429 quota exceeded"
  else Outcome.ok "response text"

theorem c2_witness :
    (chat_with_ai c2WState (Except.error "x") c2WExec "2026-01-01" (fun _ => 20)
      false 9 "hello").attempts.head? = some (Provider.google, 16) ∧
    (chat_with_ai c2WState (Except.error "x") c2WExec "2026-01-01" (fun _ => 20)
      false 9 "hello").contacted.take 2 = [c2WCfgG, c2WCfgO] ∧
    ((chat_with_ai c2WState (Except.error "x") c2WExec "2026-01-01" (fun _ => 20)
      false 9 "hello").attempts.map Prod.fst).Nodup := by
  obtain ⟨h1, h2, h3⟩ := c2_budget_and_advance.2.1 c2WState (Except.error "x")
    c2WExec "2026-01-01" (fun _ => 20) false 9 "hello" c2WCfgG [c2WCfgO] c2WM0
    c2WM1 []
    (by intro q; cases q <;> rfl) rfl (by decide) rfl rfl (by decide) (by decide)
    rfl rfl (by decide) (by decide)
    (fun i mn => ⟨"429 quota exceeded", rfl, by decide⟩)
  exact ⟨h1, h2 c2WCfgO [] rfl, h3⟩


end AINexus
